import Mathlib

/-!
# Verification of the WSC 2025 route/energy simulation core

Shallow embedding of the daily route/energy simulation engine of the
`wsc-2025-driving-test-analytics` repository:

* battery model (`battery-model.ts`): `BATTERY_SPEC`, `calculateNewSOC`;
* motor model (`motor-model.ts`): `MOTOR_SPEC`, `calculateMotorEfficiency`,
  `calculateDrivingResistance`, `calculateRequiredPower`,
  `calculateEnergyConsumption`;
* energy calculator (`energy-calculator.ts`): `calculateSegmentEnergyConsumption`,
  `calculateSegmentEnergyProduction`, `updateBatteryLevel`,
  `calculateMorningCharge`, `calculateChargingStopBatteryLevel`;
* segment planner (`route-segment-planner.ts`): `planDailySegments` with its
  per-day loop, decomposed into named step functions;
* itinerary builder (`route-planner.ts`): `createRouteItinerary` with its
  multi-day loop, stuck-day guard, max-days flagging, zero-distance-day
  filtering and post-loop aggregation.

Modelling conventions:

* JavaScript floating point numbers are modelled as exact rationals (`ℚ`).
* `Math.sin(Math.atan(x))` is modelled by an arbitrary parameter
  `sinAtan : ℚ → ℚ`; every call in the claims happens at slope `0`, where
  the exact value `sinAtan 0 = 0` is supplied.
* Terrain slope lookup (`calculateSlope` over the loaded terrain samples,
  an external oracle per the spec) is modelled by a parameter
  `slopeAt : ℚ → ℚ → ℚ` taking the position and the default slope.
* The weather-driven production estimate `estimateRouteEnergyProduction`
  (an external oracle) is modelled by `oracle : ℕ → ℚ → Option ℚ` mapping a
  day offset and a duration fraction to the summed `energyProduction` of the
  returned data, with `none` for a rejected lookup.
* `JavaScript`-level `Infinity` entries of `Math.min` are modelled with
  `Option ℚ` (`none` = absent/infinite) folded by `minO`.
* Wall-clock times are kept as rational hours; the source formats them to
  strings (`formatTime`) purely for display.
* The two potentially unbounded `while` loops take an explicit fuel
  argument and return `none` when the fuel is exhausted, so `some` results
  are exactly the terminating runs of the source loops.
-/

/- The kernel evaluates rational arithmetic fine, but the library marks the
`Rat` operations irreducible for the elaborator; restore the default
reducibility in this file so that concrete program runs can be settled by
`decide`, and raise the recursion depth for those evaluations. -/
attribute [local semireducible] Rat.add Rat.sub Rat.mul Rat.inv Rat.ofScientific

set_option maxRecDepth 8000

/-- `Math.min` with an optional (possibly `Infinity`) first argument. -/
def minO (o : Option ℚ) (x : ℚ) : ℚ := o.elim x fun v => min v x

/-! ## Battery model (`battery-model.ts`) -/

structure BatteryModel where
  nominalVoltage : ℚ
  minVoltage : ℚ
  maxVoltage : ℚ
  capacity : ℚ
  energy : ℚ
  maxDischargePower : ℚ
  standardChargeRate : ℚ
  maxChargeRate : ℚ
  standardDischargeRate : ℚ
  maxDischargeRate : ℚ

def BATTERY_SPEC : BatteryModel :=
  { nominalVoltage := 93.6
    minVoltage := 72.8
    maxVoltage := 109.2
    capacity := 31.5
    energy := 2.9484
    maxDischargePower := 7.488
    standardChargeRate := 15.75
    maxChargeRate := 31.5
    standardDischargeRate := 6.3
    maxDischargeRate := 80 }

/-- `calculateNewSOC` from `battery-model.ts`. -/
def calculateNewSOC (initialSOC solarProduction energyConsumption : ℚ) : ℚ :=
  let netEnergyChange := solarProduction - energyConsumption
  let socChange := netEnergyChange / BATTERY_SPEC.energy * 100
  max 0 (min 100 (initialSOC + socChange))

/-- `calculateRangeKm` from `battery-model.ts`. -/
def calculateRangeKm (currentSOC energyEfficiency : ℚ) : ℚ :=
  let socFraction := currentSOC / 100
  let availableEnergy := socFraction * BATTERY_SPEC.energy
  availableEnergy * energyEfficiency

/-! ## Motor model (`motor-model.ts`) -/

structure MotorModel where
  nominalPower : ℚ
  maxPower : ℚ
  efficiency : ℚ
  nominalRPM : ℚ
  nominalVoltage : ℚ
  minVoltage : ℚ
  maxVoltage : ℚ

def MOTOR_SPEC : MotorModel :=
  { nominalPower := 2
    maxPower := 5
    efficiency := 0.95
    nominalRPM := 810
    nominalVoltage := 96
    minVoltage := 45
    maxVoltage := 140 }

/-- `calculateMotorEfficiency` from `motor-model.ts`. -/
def calculateMotorEfficiency (loadPercent : ℚ) : ℚ :=
  let load := min (max 0 loadPercent) 1
  if load < 0.3 then 0.8 + load / 0.3 * 0.15
  else if load ≤ 0.8 then 0.95
  else 0.95 - (load - 0.8) / 0.2 * 0.05

/-- `calculateDrivingResistance` from `motor-model.ts`.  The composition
`Math.sin(Math.atan(·))` applied to `slope / 100` is the parameter
`sinAtan`. -/
def calculateDrivingResistance (sinAtan : ℚ → ℚ)
    (speedKmh mass frontalArea dragCoefficient slope : ℚ) : ℚ :=
  let g : ℚ := 9.81
  let speedMs := speedKmh / 3.6
  let airDensity : ℚ := 1.225
  let airResistance := 1/2 * airDensity * frontalArea * dragCoefficient * speedMs ^ 2
  let rollingResistance := 0.01 * mass * g
  let slopeResistance := mass * g * sinAtan (slope / 100)
  airResistance + rollingResistance + slopeResistance

/-- `calculateRequiredPower` from `motor-model.ts`. -/
def calculateRequiredPower (resistance speedKmh : ℚ) : ℚ :=
  resistance * (speedKmh / 3.6) / 1000

/-- `calculateEnergyConsumption` from `motor-model.ts`: motor energy for a
distance, with auxiliary electronics draw and a minimum consumption floor. -/
def calculateEnergyConsumption (sinAtan : ℚ → ℚ)
    (distance speed mass frontalArea dragCoefficient slope : ℚ) : ℚ :=
  if distance ≤ 0 then 0
  else
    let resistance := calculateDrivingResistance sinAtan speed mass frontalArea dragCoefficient slope
    let powerRequired := calculateRequiredPower resistance speed
    let loadRatio := min (powerRequired / MOTOR_SPEC.nominalPower) 1
    let actualEfficiency := calculateMotorEfficiency loadRatio
    let batteryPower := powerRequired / actualEfficiency
    let travelTime := distance / speed
    let baseConsumption := batteryPower * travelTime + 0.2 * travelTime
    let minimumConsumption := distance * 0.05
    max baseConsumption minimumConsumption

/-! ## Energy calculator (`energy-calculator.ts`) -/

structure EnergyConsumptionResult where
  totalEnergyConsumed : ℚ
  motorEnergyConsumed : ℚ
  auxiliaryEnergyConsumed : ℚ
deriving DecidableEq

/-- `calculateSegmentEnergyConsumption` from `energy-calculator.ts`.
`slopeAt` models `calculateSlope terrainData · 1.0 ·`. -/
def calculateSegmentEnergyConsumption (sinAtan : ℚ → ℚ) (slopeAt : ℚ → ℚ → ℚ)
    (distance speed mass currentKm defaultSlope frontalArea dragCoefficient : ℚ) :
    EnergyConsumptionResult :=
  if distance ≤ 0 then ⟨0, 0, 0⟩
  else
    let drivingTime := distance / speed
    let slope := slopeAt currentKm defaultSlope
    let motorEnergyConsumed :=
      calculateEnergyConsumption sinAtan distance speed mass frontalArea dragCoefficient slope
    let auxiliaryEnergyConsumed := drivingTime * 0.05
    ⟨motorEnergyConsumed + auxiliaryEnergyConsumed, motorEnergyConsumed, auxiliaryEnergyConsumed⟩

structure EnergyProductionResult where
  solarEnergyProduced : ℚ
  effectiveEnergyProduced : ℚ
deriving DecidableEq

/-- `calculateSegmentEnergyProduction` from `energy-calculator.ts`. -/
def calculateSegmentEnergyProduction
    (drivingTime dayTotalEnergy drivingHoursPerDay mpptEfficiency : ℚ) :
    EnergyProductionResult :=
  let drivingTimeFraction := drivingTime / drivingHoursPerDay
  let solarEnergyProduced := dayTotalEnergy * drivingTimeFraction * mpptEfficiency
  let solarEfficiencyFactor : ℚ := 0.7
  ⟨solarEnergyProduced, solarEnergyProduced * solarEfficiencyFactor⟩

structure EnergyBalanceResult where
  netEnergy : ℚ
  batteryPercentChange : ℚ
  batteryLevelBefore : ℚ
  batteryLevelAfter : ℚ
deriving DecidableEq

/-- `updateBatteryLevel` from `energy-calculator.ts`. -/
def updateBatteryLevel (batteryLevel energyProduced energyConsumed batteryCapacity : ℚ) :
    EnergyBalanceResult :=
  let netEnergy := energyProduced - energyConsumed
  let batteryPercentChange := netEnergy / batteryCapacity * 100
  let raw := batteryLevel + batteryPercentChange
  ⟨netEnergy, batteryPercentChange, batteryLevel, min 100 (max 0 raw)⟩

/-- `calculateMorningCharge` from `energy-calculator.ts`.  `oracleData` is the
summed `energyProduction` of the `estimateRouteEnergyProduction` call for the
4-hour morning window (`none` = the awaited call threw); `dayOfMonth` is
`new Date(dateString).getDate()`.  The `try/catch` of the source makes the
function total: the `catch` branch is the `none` case. -/
def calculateMorningCharge (oracleData : Option ℚ) (dayOfMonth : ℕ)
    (batteryLevel mpptEfficiency : ℚ) : ℚ :=
  match oracleData with
  | some total =>
      let morningChargeEnergy := total * mpptEfficiency
      let solarEfficiencyFactor : ℚ := 0.7
      let actualMorningCharge := morningChargeEnergy * solarEfficiencyFactor
      calculateNewSOC batteryLevel actualMorningCharge 0
  | none =>
      let chargePercent : ℚ := 8 + ((dayOfMonth % 8 : ℕ) : ℚ)
      min 100 (batteryLevel + chargePercent)

/-- `calculateChargingStopBatteryLevel` from `energy-calculator.ts`
(standard charge-rate model). -/
def calculateChargingStopBatteryLevel (batteryLevel chargingTime : ℚ) : ℚ :=
  let chargedCapacity := BATTERY_SPEC.standardChargeRate * chargingTime
  let chargedPercentage := chargedCapacity / BATTERY_SPEC.capacity * 100
  min 100 (batteryLevel + chargedPercentage)

/-! ## Route segment planner (`route-segment-planner.ts`) -/

/-- `BATTERY_CAPACITY` constant of `route-segment-planner.ts` (kWh). -/
def BATTERY_CAPACITY : ℚ := 5

structure ControlStop where
  name : ℕ
  distance : ℚ
deriving DecidableEq

inductive SegmentType where
  | Driving
  | ControlStop
  | BatteryCharging
deriving DecidableEq

structure RouteSegment where
  startKm : ℚ
  endKm : ℚ
  distance : ℚ
  isControlStop : Bool
  controlStopName : Option ℕ
  batteryChargingStop : Bool
  batteryLevelBefore : ℚ
  batteryLevelAfter : ℚ
  chargingTime : Option ℚ
  segmentType : SegmentType
  startTime : ℚ
  endTime : ℚ
deriving DecidableEq

structure SimulationParameters where
  totalDistance : ℚ
  averageSpeed : ℚ
  drivingHoursPerDay : ℚ
  energyEfficiency : ℚ
  panelArea : ℚ
  panelEfficiency : ℚ
  mpptEfficiency : ℚ
  controlStopDuration : ℚ
  lowBatteryThreshold : ℚ
  chargingTimeForLowBattery : ℚ
  maxDays : ℕ
  mass : ℚ
  defaultSlope : ℚ
  frontalArea : ℚ
  dragCoefficient : ℚ
deriving DecidableEq

/-- The mutable locals of the `planDailySegments` day loop. -/
structure DayPlanState where
  segments : List RouteSegment
  totalDistance : ℚ
  dailyEnergyConsumption : ℚ
  dailyChargingTime : ℚ
  remainingDrivingHours : ℚ
  currentBatteryLevel : ℚ
  currentPosition : ℚ
  dayCompleted : Bool
  currentTime : ℚ
  remainingDistance : ℚ
  upcomingControlStops : List ControlStop
deriving DecidableEq

def nextControlStop (s : DayPlanState) : Option ControlStop :=
  s.upcomingControlStops.head?

def distanceToNextStop (s : DayPlanState) : Option ℚ :=
  (nextControlStop s).map fun st => st.distance - s.currentPosition

def maxSegmentDistance (p : SimulationParameters) (s : DayPlanState) : ℚ :=
  p.averageSpeed * s.remainingDrivingHours

def maxBatteryDistance (p : SimulationParameters) (s : DayPlanState) : ℚ :=
  let energyPerKm := 1 / p.energyEfficiency
  let batteryEnergyAvailable :=
    (s.currentBatteryLevel - p.lowBatteryThreshold) / 100 * BATTERY_CAPACITY
  batteryEnergyAvailable / energyPerKm

/-- The four-way `Math.min` of `route-segment-planner.ts` (line 85): the
battery term participates only when `maxBatteryDistance > 0`, otherwise it is
passed as `Infinity`; a missing next control stop is `Infinity` too. -/
def segmentDistance (p : SimulationParameters) (s : DayPlanState) : ℚ :=
  minO (distanceToNextStop s)
    (minO (if 0 < maxBatteryDistance p s then some (maxBatteryDistance p s) else none)
      (min (maxSegmentDistance p s) s.remainingDistance))

def segmentDrivingTime (p : SimulationParameters) (s : DayPlanState) : ℚ :=
  segmentDistance p s / p.averageSpeed

/-- The energy consumption of the pending driving segment; the source call
site passes five arguments, so `defaultSlope = 0`, `frontalArea = 0.95` and
`dragCoefficient = 0.14` are the JS defaults. -/
def segmentConsumption (sinAtan : ℚ → ℚ) (slopeAt : ℚ → ℚ → ℚ)
    (p : SimulationParameters) (s : DayPlanState) : EnergyConsumptionResult :=
  calculateSegmentEnergyConsumption sinAtan slopeAt
    (segmentDistance p s) p.averageSpeed p.mass s.currentPosition 0 0.95 0.14

/-- The energy production of the pending driving segment; the source call
site passes the literal `8` as the day's total energy. -/
def segmentProduction (p : SimulationParameters) (s : DayPlanState) :
    EnergyProductionResult :=
  calculateSegmentEnergyProduction (segmentDrivingTime p s) 8
    p.drivingHoursPerDay p.mpptEfficiency

def segmentBatteryAfter (sinAtan : ℚ → ℚ) (slopeAt : ℚ → ℚ → ℚ)
    (p : SimulationParameters) (s : DayPlanState) : ℚ :=
  (updateBatteryLevel s.currentBatteryLevel
    (segmentProduction p s).effectiveEnergyProduced
    (segmentConsumption sinAtan slopeAt p s).totalEnergyConsumed
    BATTERY_SPEC.energy).batteryLevelAfter

def drivingSegment (sinAtan : ℚ → ℚ) (slopeAt : ℚ → ℚ → ℚ)
    (p : SimulationParameters) (s : DayPlanState) : RouteSegment :=
  { startKm := s.currentPosition
    endKm := s.currentPosition + segmentDistance p s
    distance := segmentDistance p s
    isControlStop := false
    controlStopName := none
    batteryChargingStop := false
    batteryLevelBefore := s.currentBatteryLevel
    batteryLevelAfter := segmentBatteryAfter sinAtan slopeAt p s
    chargingTime := none
    segmentType := SegmentType.Driving
    startTime := s.currentTime
    endTime := s.currentTime + segmentDrivingTime p s }

/-- State updates of the driving part of one loop iteration
(lines 100-160 of `route-segment-planner.ts`). -/
def afterDriving (sinAtan : ℚ → ℚ) (slopeAt : ℚ → ℚ → ℚ)
    (p : SimulationParameters) (s : DayPlanState) : DayPlanState :=
  { s with
    segments := s.segments ++ [drivingSegment sinAtan slopeAt p s]
    currentPosition := s.currentPosition + segmentDistance p s
    currentBatteryLevel := segmentBatteryAfter sinAtan slopeAt p s
    remainingDistance := s.remainingDistance - segmentDistance p s
    remainingDrivingHours := s.remainingDrivingHours - segmentDrivingTime p s
    totalDistance := s.totalDistance + segmentDistance p s
    dailyEnergyConsumption :=
      s.dailyEnergyConsumption + (segmentConsumption sinAtan slopeAt p s).totalEnergyConsumed
    currentTime := s.currentTime + segmentDrivingTime p s }

def controlStopSegment (p : SimulationParameters) (st : ControlStop)
    (s : DayPlanState) : RouteSegment :=
  { startKm := s.currentPosition
    endKm := s.currentPosition
    distance := 0
    isControlStop := true
    controlStopName := some st.name
    batteryChargingStop := false
    batteryLevelBefore := s.currentBatteryLevel
    batteryLevelAfter := s.currentBatteryLevel
    chargingTime := some p.controlStopDuration
    segmentType := SegmentType.ControlStop
    startTime := s.currentTime
    endTime := s.currentTime + p.controlStopDuration }

/-- Control-stop handling (lines 162-191): `stO` is the `nextControlStop`
captured before driving; the arrival test uses the updated position. -/
def applyControlStop (p : SimulationParameters) (stO : Option ControlStop)
    (s : DayPlanState) : DayPlanState :=
  match stO with
  | none => s
  | some st =>
      if |s.currentPosition - st.distance| < 0.1 then
        { s with
          segments := s.segments ++ [controlStopSegment p st s]
          currentTime := s.currentTime + p.controlStopDuration
          dailyChargingTime := s.dailyChargingTime + p.controlStopDuration
          upcomingControlStops :=
            s.upcomingControlStops.filter fun x => decide (s.currentPosition < x.distance) }
      else s

def chargingSegment (p : SimulationParameters) (s : DayPlanState) : RouteSegment :=
  { startKm := s.currentPosition
    endKm := s.currentPosition
    distance := 0
    isControlStop := false
    controlStopName := none
    batteryChargingStop := true
    batteryLevelBefore := s.currentBatteryLevel
    batteryLevelAfter := min 100 (s.currentBatteryLevel + 75)
    chargingTime := some p.chargingTimeForLowBattery
    segmentType := SegmentType.BatteryCharging
    startTime := s.currentTime
    endTime := s.currentTime + p.chargingTimeForLowBattery }

/-- Low-battery charging check at the end of a loop iteration
(lines 193-220): flat `+75` percentage points capped at 100, charging time
advances the wall clock but is not deducted from `remainingDrivingHours`. -/
def applyLowBatteryCharge (p : SimulationParameters) (s : DayPlanState) :
    DayPlanState :=
  if s.currentBatteryLevel ≤ p.lowBatteryThreshold then
    { s with
      segments := s.segments ++ [chargingSegment p s]
      currentTime := s.currentTime + p.chargingTimeForLowBattery
      dailyChargingTime := s.dailyChargingTime + p.chargingTimeForLowBattery
      currentBatteryLevel := min 100 (s.currentBatteryLevel + 75) }
  else s

inductive StepOutcome where
  | cont (s : DayPlanState)
  | stop (s : DayPlanState)
deriving DecidableEq

def StepOutcome.state : StepOutcome → DayPlanState
  | .cont s => s
  | .stop s => s

/-- The state updates of one non-breaking iteration of the day loop:
drive, then control-stop check, then low-battery check. -/
def stepCore (sinAtan : ℚ → ℚ) (slopeAt : ℚ → ℚ → ℚ)
    (p : SimulationParameters) (s : DayPlanState) : DayPlanState :=
  applyLowBatteryCharge p
    (applyControlStop p (nextControlStop s) (afterDriving sinAtan slopeAt p s))

/-- One iteration of the day loop of `planDailySegments` (lines 65-231):
drive, then control-stop check, then low-battery check, then the 18:00
day-completion check and the remaining-distance break. -/
def planStep (sinAtan : ℚ → ℚ) (slopeAt : ℚ → ℚ → ℚ)
    (p : SimulationParameters) (s : DayPlanState) : StepOutcome :=
  if segmentDrivingTime p s ≤ 0 then .stop s
  else
    let s3 := stepCore sinAtan slopeAt p s
    let s4 := if 18 ≤ s3.currentTime then { s3 with dayCompleted := true } else s3
    if s4.remainingDistance ≤ 0 then .stop s4 else .cont s4

def dayLoopGuard (s : DayPlanState) : Prop :=
  0 < s.remainingDrivingHours ∧ s.dayCompleted = false ∧ 0 < s.remainingDistance

instance (s : DayPlanState) : Decidable (dayLoopGuard s) := by
  unfold dayLoopGuard; infer_instance

/-- The `while` loop of `planDailySegments`, with fuel. -/
def runPlanLoop (sinAtan : ℚ → ℚ) (slopeAt : ℚ → ℚ → ℚ)
    (p : SimulationParameters) : ℕ → DayPlanState → Option DayPlanState
  | 0, _ => none
  | fuel + 1, s =>
      if dayLoopGuard s then
        match planStep sinAtan slopeAt p s with
        | .cont s' => runPlanLoop sinAtan slopeAt p fuel s'
        | .stop s' => some s'
      else some s

structure DailySegmentPlanResult where
  segments : List RouteSegment
  currentKm : ℚ
  remainingDistance : ℚ
  batteryLevel : ℚ
  totalDistance : ℚ
  dailyEnergyConsumption : ℚ
  dailyChargingTime : ℚ
deriving DecidableEq

def insertStop (st : ControlStop) : List ControlStop → List ControlStop
  | [] => [st]
  | x :: xs => if st.distance ≤ x.distance then st :: x :: xs else x :: insertStop st xs

/-- The ascending sort by `distance` applied to the upcoming control stops. -/
def sortStops : List ControlStop → List ControlStop
  | [] => []
  | x :: xs => insertStop x (sortStops xs)

/-- `RouteSegmentPlanner.planDailySegments`: the date string argument of the
source is unused inside the function, so it is dropped here. -/
def planDailySegments (fuel : ℕ) (sinAtan : ℚ → ℚ) (slopeAt : ℚ → ℚ → ℚ)
    (currentKm remainingDistance batteryLevel : ℚ)
    (controlStops : List ControlStop) (p : SimulationParameters) :
    Option DailySegmentPlanResult :=
  let s0 : DayPlanState :=
    { segments := []
      totalDistance := 0
      dailyEnergyConsumption := 0
      dailyChargingTime := 0
      remainingDrivingHours := p.drivingHoursPerDay
      currentBatteryLevel := batteryLevel
      currentPosition := currentKm
      dayCompleted := false
      currentTime := 10
      remainingDistance := remainingDistance
      upcomingControlStops :=
        sortStops (controlStops.filter fun st => decide (currentKm < st.distance)) }
  (runPlanLoop sinAtan slopeAt p fuel s0).map fun s =>
    { segments := s.segments
      currentKm := s.currentPosition
      remainingDistance := s.remainingDistance
      batteryLevel := s.currentBatteryLevel
      totalDistance := s.totalDistance
      dailyEnergyConsumption := s.dailyEnergyConsumption
      dailyChargingTime := s.dailyChargingTime }

/-! ## Itinerary builder (`route-planner.ts`, the current `createRouteItinerary`)

Control-stop names are strings in the source; they are modelled as numeric
identifiers (`ℕ`), which is faithful for every claim (names are only carried
around).  Dates are modelled as day offsets from the start date; the
`dayOfMonth` parameter maps an offset to `new Date(dateString).getDate()`. -/

structure DailyItinerary where
  day : ℕ
  date : ℕ
  segments : List RouteSegment
  startKm : ℚ
  endKm : ℚ
  totalDistance : ℚ
  energyProduction : ℚ
  energyConsumption : ℚ
  startBatteryLevel : ℚ
  endBatteryLevel : ℚ
  totalChargingTime : ℚ
  reachedMaxDays : Bool
deriving DecidableEq

structure RouteItinerary where
  totalDays : ℕ
  totalDistance : ℚ
  dailyItinerary : List DailyItinerary
  controlStops : List ControlStop
  totalEnergyProduction : ℚ
  totalEnergyConsumption : ℚ
  estimatedArrivalDate : ℕ
  estimatedArrivalTime : ℚ
  totalChargingTime : ℚ
  averageBatteryLevel : ℚ
deriving DecidableEq

/-- The mutable locals of the multi-day loop of `createRouteItinerary`. -/
structure SimState where
  dailyItinerary : List DailyItinerary
  currentKm : ℚ
  remainingDistance : ℚ
  batteryLevel : ℚ
  currentDay : ℕ
  previousRemainingDistance : ℚ
  stuckCounter : ℕ
deriving DecidableEq

/-- The `DailyItinerary` entry pushed for one simulated day
(lines 122-136 of `route-planner.ts`). -/
def newDayOf (p : SimulationParameters) (s : SimState)
    (dayPlan : DailySegmentPlanResult) : DailyItinerary :=
  { day := s.currentDay + 1
    date := s.currentDay
    segments := dayPlan.segments
    startKm := (dayPlan.segments.head?.elim 0 fun sg => sg.startKm)
    endKm := (dayPlan.segments.getLast?.elim 0 fun sg => sg.endKm)
    totalDistance := dayPlan.totalDistance
    energyProduction := 0
    energyConsumption := dayPlan.dailyEnergyConsumption
    startBatteryLevel := s.batteryLevel
    endBatteryLevel := dayPlan.batteryLevel
    totalChargingTime := dayPlan.dailyChargingTime
    reachedMaxDays := decide (p.maxDays ≤ s.currentDay + 1) }

/-- The state update after a successful day (lines 122-145). -/
def pushDay (p : SimulationParameters) (s : SimState)
    (dayPlan : DailySegmentPlanResult) : SimState :=
  { dailyItinerary := s.dailyItinerary ++ [newDayOf p s dayPlan]
    currentKm := dayPlan.currentKm
    remainingDistance := dayPlan.remainingDistance
    batteryLevel := dayPlan.batteryLevel
    currentDay := s.currentDay + 1
    previousRemainingDistance := s.previousRemainingDistance
    stuckCounter := s.stuckCounter }

/-- The multi-day `while` loop (lines 100-176 of `route-planner.ts`).  The
fuel argument counts the remaining admissible days: the loop guard
`currentDay < maxDays` holds exactly when the fuel is positive, because
`currentDay` is incremented once per iteration and the initial call passes
`maxDays` with `currentDay = 0`.  A `none` result only arises from an
unfinished `planDailySegments` call. -/
def runDays (plannerFuel : ℕ) (oracle : ℕ → ℚ → Option ℚ) (dayOfMonth : ℕ → ℕ)
    (sinAtan : ℚ → ℚ) (slopeAt : ℚ → ℚ → ℚ)
    (controlStops : List ControlStop) (p : SimulationParameters) :
    ℕ → SimState → Option SimState
  | 0, s => some s
  | n + 1, s =>
      if 0 < s.remainingDistance then
        match planDailySegments plannerFuel sinAtan slopeAt
            s.currentKm s.remainingDistance s.batteryLevel controlStops p with
        | none => none
        | some dayPlan =>
            let dateOffset := s.currentDay
            if dayPlan.segments = [] then
              -- defensive break: a day with no segments ends the simulation
              some { s with currentDay := s.currentDay + 1 }
            else
              let s1 : SimState := pushDay p s dayPlan
              -- trip-level stuck-day guard
              if |s1.remainingDistance - s.previousRemainingDistance| < 0.001 ∧
                  3 ≤ s.stuckCounter + 1 then
                some { s1 with stuckCounter := s.stuckCounter + 1 }
              else
                let s2 : SimState :=
                  if |s1.remainingDistance - s.previousRemainingDistance| < 0.001 then
                    { s1 with stuckCounter := s.stuckCounter + 1,
                              previousRemainingDistance := s1.remainingDistance }
                  else
                    { s1 with stuckCounter := 0,
                              previousRemainingDistance := s1.remainingDistance }
                -- next-morning charge
                let morningLevel :=
                  calculateMorningCharge (oracle dateOffset (4/24))
                    (dayOfMonth dateOffset) s2.batteryLevel p.mpptEfficiency
                let s3 : SimState :=
                  if 0 < s2.remainingDistance then
                    { s2 with batteryLevel := morningLevel }
                  else s2
                -- destination-reached break
                if p.totalDistance ≤ s3.currentKm then
                  some { s3 with remainingDistance := 0 }
                else
                  runDays plannerFuel oracle dayOfMonth sinAtan slopeAt controlStops p n s3
      else some s

/-- The post-loop fix-up marking the last day when the day cap was hit
(lines 178-187). -/
def setLastFlag : List DailyItinerary → List DailyItinerary
  | [] => []
  | [d] => [{ d with reachedMaxDays := true }]
  | d :: rest => d :: setLastFlag rest

/-- The post-loop per-day production recomputation (lines 192-215): one
oracle query per filtered day over the 8-hour driving window, multiplied by
the MPPT efficiency.  The source awaits these through `Promise.all` with no
`try/catch`, so a single failed query rejects the whole call (`none`). -/
def fillProduction (oracle : ℕ → ℚ → Option ℚ) (p : SimulationParameters) :
    List DailyItinerary → Option (List DailyItinerary)
  | [] => some []
  | d :: rest =>
      match oracle d.date (8/24) with
      | none => none
      | some prod =>
          (fillProduction oracle p rest).map fun rest' =>
            { d with energyProduction := prod * p.mpptEfficiency } :: rest'

/-- The final aggregation (lines 217-266). -/
def assembleItinerary (p : SimulationParameters) (controlStops : List ControlStop)
    (days : List DailyItinerary) : RouteItinerary :=
  let totalEnergyProduction := (days.map fun d => d.energyProduction).sum
  let totalEnergyConsumption := (days.map fun d => d.energyConsumption).sum
  let totalChargingHours := (days.map fun d => d.totalChargingTime).sum
  let endLevels := days.map fun d => d.endBatteryLevel
  let averageBatteryLevel :=
    if 0 < endLevels.length then endLevels.sum / (endLevels.length : ℚ) else 0
  let estimatedArrivalDate := (days.getLast?).elim 0 fun d => d.date
  let estimatedArrivalTime :=
    ((days.getLast?).bind fun d => d.segments.getLast?).elim 18 fun sg => sg.endTime
  { totalDays := days.length
    totalDistance := p.totalDistance
    dailyItinerary := days
    controlStops := controlStops
    totalEnergyProduction := totalEnergyProduction
    totalEnergyConsumption := totalEnergyConsumption
    estimatedArrivalDate := estimatedArrivalDate
    estimatedArrivalTime := estimatedArrivalTime
    totalChargingTime := totalChargingHours
    averageBatteryLevel := averageBatteryLevel }

/-- The initial loop state of `createRouteItinerary`: km 0, full battery,
the whole route remaining. -/
def initSimState (p : SimulationParameters) : SimState :=
  { dailyItinerary := []
    currentKm := 0
    remainingDistance := p.totalDistance
    batteryLevel := 100
    currentDay := 0
    previousRemainingDistance := p.totalDistance
    stuckCounter := 0 }

def createRouteItineraryAux (plannerFuel : ℕ) (oracle : ℕ → ℚ → Option ℚ)
    (dayOfMonth : ℕ → ℕ) (sinAtan : ℚ → ℚ) (slopeAt : ℚ → ℚ → ℚ)
    (controlStops : List ControlStop) (p : SimulationParameters) :
    Option (SimState × RouteItinerary) :=
  match runDays plannerFuel oracle dayOfMonth sinAtan slopeAt controlStops p p.maxDays
      (initSimState p) with
  | none => none
  | some fs =>
      let flagged :=
        if p.maxDays ≤ fs.currentDay then setLastFlag fs.dailyItinerary
        else fs.dailyItinerary
      let filtered := flagged.filter fun d => decide (0 < d.totalDistance)
      match fillProduction oracle p filtered with
      | none => none
      | some days => some (fs, assembleItinerary p controlStops days)

def createRouteItinerary (plannerFuel : ℕ) (oracle : ℕ → ℚ → Option ℚ)
    (dayOfMonth : ℕ → ℕ) (sinAtan : ℚ → ℚ) (slopeAt : ℚ → ℚ → ℚ)
    (controlStops : List ControlStop) (p : SimulationParameters) :
    Option RouteItinerary :=
  (createRouteItineraryAux plannerFuel oracle dayOfMonth sinAtan slopeAt controlStops p).map
    fun x => x.2

/-! ## Helper definitions used by the theorem statements -/

/-- Battery-percentage fields of a segment lie in the closed range 0..100. -/
def segOK (seg : RouteSegment) : Prop :=
  0 ≤ seg.batteryLevelBefore ∧ seg.batteryLevelBefore ≤ 100 ∧
    0 ≤ seg.batteryLevelAfter ∧ seg.batteryLevelAfter ≤ 100

instance (seg : RouteSegment) : Decidable (segOK seg) := by
  unfold segOK; infer_instance

def sumDayDistances (days : List DailyItinerary) : ℚ :=
  (days.map fun d => d.totalDistance).sum

def flagList (days : List DailyItinerary) : List Bool :=
  days.map fun d => d.reachedMaxDays

/-! ## Concrete instantiations used by witnesses and counterexamples -/

/-- Flat terrain: the value of `Math.sin(Math.atan(0))`. -/
def flatSinAtan : ℚ → ℚ := fun _ => 0

/-- Empty terrain data: `calculateSlope [] km 1.0 d = d`. -/
def emptySlopeAt : ℚ → ℚ → ℚ := fun _ d => d

/-- A production oracle that always answers 0 kWh. -/
def zeroOracle : ℕ → ℚ → Option ℚ := fun _ _ => some 0

/-- A calendar where every simulated day is the first of the month. -/
def firstOfMonth : ℕ → ℕ := fun _ => 1

/-- Parameters of a short 16 km run at the source defaults (80 km/h, 8 h/day,
10 km/kWh, MPPT 0.98, threshold 25 %, 2 h low-battery charge). -/
def paramsShort : SimulationParameters :=
  { totalDistance := 16
    averageSpeed := 80
    drivingHoursPerDay := 8
    energyEfficiency := 10
    panelArea := 4
    panelEfficiency := 22/100
    mpptEfficiency := 98/100
    controlStopDuration := 1/2
    lowBatteryThreshold := 25
    chargingTimeForLowBattery := 2
    maxDays := 30
    mass := 300
    defaultSlope := 0
    frontalArea := 95/100
    dragCoefficient := 14/100 }

/-- A 1000 km route under a one-day cap with a generous efficiency, so the
single allowed day covers 640 km and the run is cut off by the cap. -/
def paramsCutoff : SimulationParameters :=
  { paramsShort with totalDistance := 1000, energyEfficiency := 1000, maxDays := 1 }

/-- The source defaults verbatim: the 3022 km WSC route, 80 km/h, 8 h/day,
10 km/kWh, MPPT 0.98, threshold 25 %, 30-day cap. -/
def paramsDefault : SimulationParameters :=
  { paramsShort with totalDistance := 3022, energyEfficiency := 10, maxDays := 30 }

/-! ## Small clamp lemmas -/

lemma updateBatteryLevel_after_nonneg (b ep ec cap : ℚ) :
    0 ≤ (updateBatteryLevel b ep ec cap).batteryLevelAfter := by
  unfold updateBatteryLevel
  exact le_min (by norm_num) (le_max_left _ _)

lemma updateBatteryLevel_after_le (b ep ec cap : ℚ) :
    (updateBatteryLevel b ep ec cap).batteryLevelAfter ≤ 100 := by
  unfold updateBatteryLevel
  exact min_le_left _ _

lemma calculateNewSOC_nonneg (soc ep ec : ℚ) : 0 ≤ calculateNewSOC soc ep ec := by
  unfold calculateNewSOC
  exact le_max_left _ _

lemma calculateNewSOC_le (soc ep ec : ℚ) : calculateNewSOC soc ep ec ≤ 100 := by
  unfold calculateNewSOC
  exact max_le (by norm_num) (min_le_left _ _)

lemma calculateMorningCharge_mem (o : Option ℚ) (day : ℕ) (b mppt : ℚ)
    (hb0 : 0 ≤ b) :
    0 ≤ calculateMorningCharge o day b mppt ∧ calculateMorningCharge o day b mppt ≤ 100 := by
  unfold calculateMorningCharge
  match o with
  | some t =>
      exact ⟨calculateNewSOC_nonneg _ _ _, calculateNewSOC_le _ _ _⟩
  | none =>
      constructor
      · have : (0:ℚ) ≤ ((day % 8 : ℕ) : ℚ) := by positivity
        have : (0:ℚ) ≤ b + (8 + ((day % 8 : ℕ) : ℚ)) := by linarith
        exact le_min (by norm_num) this
      · exact min_le_left _ _

/-! ## C6 — the battery-update function is exactly the clamped SoC formula -/

/-- C6: for every `soc`, `energyProducedKWh`, `energyConsumedKWh`, the
battery-update function `calculateNewSOC` returns exactly
`clamp(soc + (produced - consumed) / batteryEnergyKWh * 100, 0, 100)` with
`batteryEnergyKWh = 2.9484`, and in particular the result always lies in
`[0, 100]`. -/
theorem calculateNewSOC_clamp_formula (soc produced consumed : ℚ) :
    calculateNewSOC soc produced consumed
        = min 100 (max 0 (soc + (produced - consumed) / (2.9484 : ℚ) * 100)) ∧
      0 ≤ calculateNewSOC soc produced consumed ∧
      calculateNewSOC soc produced consumed ≤ 100 := by
  refine ⟨?_, calculateNewSOC_nonneg _ _ _, calculateNewSOC_le _ _ _⟩
  unfold calculateNewSOC
  have h : BATTERY_SPEC.energy = (2.9484 : ℚ) := rfl
  rw [h, max_min_distrib_left]
  norm_num

/-! ## C7 — the motor energy-consumption function is total, non-negative and
floored at 0.05 kWh/km -/

/-- C7: for every input with positive speed, `calculateEnergyConsumption` is
total over exact arithmetic (NaN does not arise in the rational model): it
returns `0` for `distance ≤ 0`, at least the floor `distance * 0.05` for
`distance > 0` (the floor is applied after the auxiliary per-hour draw is
added), and never a negative value. -/
theorem calculateEnergyConsumption_total_nonneg_floor (sinAtan : ℚ → ℚ)
    (distance speed mass frontalArea dragCoefficient slope : ℚ)
    (_hspeed : 0 < speed) :
    (distance ≤ 0 →
        calculateEnergyConsumption sinAtan distance speed mass frontalArea dragCoefficient slope = 0)
      ∧ (0 < distance →
        distance * (0.05 : ℚ)
          ≤ calculateEnergyConsumption sinAtan distance speed mass frontalArea dragCoefficient slope)
      ∧ 0 ≤ calculateEnergyConsumption sinAtan distance speed mass frontalArea dragCoefficient slope := by
  unfold calculateEnergyConsumption
  rcases le_or_lt distance 0 with hd | hd
  · rw [if_pos hd]
    exact ⟨fun _ => rfl, fun h => absurd hd (not_le.mpr h), le_refl 0⟩
  · rw [if_neg (not_le.mpr hd)]
    refine ⟨fun h => absurd h (not_le.mpr hd), fun _ => le_max_right _ _, ?_⟩
    have hfloor : (0:ℚ) ≤ distance * 0.05 := by positivity
    exact le_trans hfloor (le_max_right _ _)

/-- Witness for C7 at speed 80 km/h, 10 km, flat terrain. -/
theorem calculateEnergyConsumption_total_nonneg_floor_witness :
    (0:ℚ) < 80 ∧
      ((10:ℚ) ≤ 0 →
          calculateEnergyConsumption flatSinAtan 10 80 300 (95/100) (14/100) 0 = 0)
        ∧ ((0:ℚ) < 10 →
          (10:ℚ) * (0.05 : ℚ)
            ≤ calculateEnergyConsumption flatSinAtan 10 80 300 (95/100) (14/100) 0)
        ∧ 0 ≤ calculateEnergyConsumption flatSinAtan 10 80 300 (95/100) (14/100) 0 :=
  ⟨by norm_num,
    calculateEnergyConsumption_total_nonneg_floor flatSinAtan 10 80 300 (95/100) (14/100) 0
      (by norm_num)⟩

/-! ## C8 — the morning-charge step absorbs oracle failures -/

/-- C8: `calculateMorningCharge` is total by construction (the source wraps
the oracle call in `try/catch`), and when the energy-production oracle fails
it returns the deterministic fallback
`min(100, batteryLevel + (8 + dayOfMonth % 8))`; the fallback never moves
the battery level backwards when the level is a valid percentage, so the
simulation state still advances. -/
theorem calculateMorningCharge_fallback (oracleData : Option ℚ) (day : ℕ)
    (batteryLevel mppt : ℚ) (hfail : oracleData = none) :
    calculateMorningCharge oracleData day batteryLevel mppt
        = min 100 (batteryLevel + (8 + ((day % 8 : ℕ) : ℚ)))
      ∧ (batteryLevel ≤ 100 →
        batteryLevel ≤ calculateMorningCharge oracleData day batteryLevel mppt) := by
  subst hfail
  constructor
  · rfl
  · intro hb
    unfold calculateMorningCharge
    have : (0:ℚ) ≤ ((day % 8 : ℕ) : ℚ) := by positivity
    exact le_min hb (by linarith)

/-- Witness for C8: oracle failure on day-of-month 3 at 50 % battery. -/
theorem calculateMorningCharge_fallback_witness :
    (none : Option ℚ) = none ∧
      (calculateMorningCharge none 3 50 (98/100)
          = min 100 (50 + (8 + ((3 % 8 : ℕ) : ℚ)))
        ∧ ((50:ℚ) ≤ 100 → (50:ℚ) ≤ calculateMorningCharge none 3 50 (98/100))) :=
  ⟨rfl, calculateMorningCharge_fallback none 3 50 (98/100) rfl⟩

/-! ## Generic facts about a loop iteration -/

lemma planStep_state_cases (sinAtan : ℚ → ℚ) (slopeAt : ℚ → ℚ → ℚ)
    (p : SimulationParameters) (s : DayPlanState)
    (h : ¬ segmentDrivingTime p s ≤ 0) :
    (planStep sinAtan slopeAt p s).state = stepCore sinAtan slopeAt p s ∨
      (planStep sinAtan slopeAt p s).state
        = { stepCore sinAtan slopeAt p s with dayCompleted := true } := by
  unfold planStep
  rw [if_neg h]
  dsimp only
  split
  · split <;> simp [StepOutcome.state]
  · split <;> simp [StepOutcome.state]

/-! ## C4 — low-battery charging in the day loop -/

/-- C4 counterexample: in `planDailySegments`, a day that starts with the
battery already at or below the low-battery threshold (20 % ≤ 25 %) begins
with a `Driving` segment, not with a `BatteryCharging` segment: the
low-battery check runs only after driving, so charging is not emitted
"before any further driving" as the claim requires. -/
theorem lowBattery_check_not_before_driving_counterexample :
    (20:ℚ) ≤ paramsShort.lowBatteryThreshold ∧
      (planDailySegments 3 flatSinAtan emptySlopeAt 0 16 20 [] paramsShort).map
          (fun r => r.segments.head?.map fun sg => sg.segmentType)
        = some (some SegmentType.Driving) ∧
      SegmentType.Driving ≠ SegmentType.BatteryCharging := by
  refine ⟨by norm_num [paramsShort], by decide, by decide⟩

/-- C4 (amended): the low-battery check of `planDailySegments` runs at the
end of a loop iteration, after the iteration's driving segment.  Whenever the
post-driving state of charge is at or below `lowBatteryThreshold` (and no
control stop intervenes), the iteration appends a `BatteryCharging` segment
of `chargingTimeForLowBattery` hours at the post-driving position (position
unchanged by the charge), raises the SoC by a flat 75 percentage points
clamped to 100 (not by the standard charge-rate model), and the charging
time advances the wall clock (ending the day once it passes 18:00) without
being deducted from the remaining driving-hours budget. -/
theorem lowBattery_charge_after_driving (sinAtan : ℚ → ℚ) (slopeAt : ℚ → ℚ → ℚ)
    (p : SimulationParameters) (s : DayPlanState)
    (hstops : s.upcomingControlStops = [])
    (hdrive : ¬ segmentDrivingTime p s ≤ 0)
    (hlow : segmentBatteryAfter sinAtan slopeAt p s ≤ p.lowBatteryThreshold) :
    (planStep sinAtan slopeAt p s).state.segments
        = s.segments ++ [drivingSegment sinAtan slopeAt p s,
            chargingSegment p (afterDriving sinAtan slopeAt p s)]
      ∧ (planStep sinAtan slopeAt p s).state.currentPosition
        = s.currentPosition + segmentDistance p s
      ∧ (planStep sinAtan slopeAt p s).state.currentBatteryLevel
        = min 100 (segmentBatteryAfter sinAtan slopeAt p s + 75)
      ∧ (planStep sinAtan slopeAt p s).state.remainingDrivingHours
        = s.remainingDrivingHours - segmentDrivingTime p s
      ∧ (planStep sinAtan slopeAt p s).state.currentTime
        = s.currentTime + segmentDrivingTime p s + p.chargingTimeForLowBattery
      ∧ (planStep sinAtan slopeAt p s).state.dailyChargingTime
        = s.dailyChargingTime + p.chargingTimeForLowBattery
      ∧ (chargingSegment p (afterDriving sinAtan slopeAt p s)).startKm
        = s.currentPosition + segmentDistance p s
      ∧ (chargingSegment p (afterDriving sinAtan slopeAt p s)).endKm
        = s.currentPosition + segmentDistance p s
      ∧ (chargingSegment p (afterDriving sinAtan slopeAt p s)).batteryLevelBefore
        = segmentBatteryAfter sinAtan slopeAt p s
      ∧ (chargingSegment p (afterDriving sinAtan slopeAt p s)).batteryLevelAfter
        = min 100 (segmentBatteryAfter sinAtan slopeAt p s + 75)
      ∧ (chargingSegment p (afterDriving sinAtan slopeAt p s)).chargingTime
        = some p.chargingTimeForLowBattery
      ∧ (chargingSegment p (afterDriving sinAtan slopeAt p s)).segmentType
        = SegmentType.BatteryCharging := by
  have hns : nextControlStop s = none := by
    unfold nextControlStop; rw [hstops]; rfl
  have hcore : stepCore sinAtan slopeAt p s
      = applyLowBatteryCharge p (afterDriving sinAtan slopeAt p s) := by
    unfold stepCore
    rw [hns]
    rfl
  have hafter : (afterDriving sinAtan slopeAt p s).currentBatteryLevel
      = segmentBatteryAfter sinAtan slopeAt p s := rfl
  have hchg : applyLowBatteryCharge p (afterDriving sinAtan slopeAt p s)
      = { afterDriving sinAtan slopeAt p s with
            segments := (afterDriving sinAtan slopeAt p s).segments ++
              [chargingSegment p (afterDriving sinAtan slopeAt p s)]
            currentTime := (afterDriving sinAtan slopeAt p s).currentTime +
              p.chargingTimeForLowBattery
            dailyChargingTime := (afterDriving sinAtan slopeAt p s).dailyChargingTime +
              p.chargingTimeForLowBattery
            currentBatteryLevel :=
              min 100 ((afterDriving sinAtan slopeAt p s).currentBatteryLevel + 75) } := by
    unfold applyLowBatteryCharge
    rw [if_pos (by rw [hafter]; exact hlow)]
  rcases planStep_state_cases sinAtan slopeAt p s hdrive with hcase | hcase <;>
    rw [hcase, hcore, hchg] <;>
    refine ⟨by simp [afterDriving], rfl, rfl, rfl, by simp [afterDriving, add_assoc], rfl,
      rfl, rfl, rfl, rfl, rfl, rfl⟩

/-- A fast run (200 km/h) whose first driving segment drains the battery from
26 % to below the 25 % threshold, triggering the end-of-iteration charge. -/
def paramsFast : SimulationParameters :=
  { paramsShort with averageSpeed := 200, totalDistance := 3022 }

/-- Day-loop state at the start of a day with 26 % battery, 3022 km to go. -/
def stateNearThreshold : DayPlanState :=
  { segments := []
    totalDistance := 0
    dailyEnergyConsumption := 0
    dailyChargingTime := 0
    remainingDrivingHours := 8
    currentBatteryLevel := 26
    currentPosition := 0
    dayCompleted := false
    currentTime := 10
    remainingDistance := 3022
    upcomingControlStops := [] }

/-- Witness for C4 (amended) at a concrete iteration whose driving segment
crosses the threshold. -/
theorem lowBattery_charge_after_driving_witness :
    stateNearThreshold.upcomingControlStops = [] ∧
      ¬ segmentDrivingTime paramsFast stateNearThreshold ≤ 0 ∧
      segmentBatteryAfter flatSinAtan emptySlopeAt paramsFast stateNearThreshold
        ≤ paramsFast.lowBatteryThreshold ∧
      (planStep flatSinAtan emptySlopeAt paramsFast stateNearThreshold).state.segments
        = stateNearThreshold.segments ++
            [drivingSegment flatSinAtan emptySlopeAt paramsFast stateNearThreshold,
              chargingSegment paramsFast
                (afterDriving flatSinAtan emptySlopeAt paramsFast stateNearThreshold)] :=
  ⟨rfl, by decide, by decide,
    (lowBattery_charge_after_driving flatSinAtan emptySlopeAt paramsFast stateNearThreshold
      rfl (by decide) (by decide)).1⟩

/-! ## C5 — the driving-segment distance rule -/

/-- C5 counterexample: with the battery at 20 % (below the 25 % threshold),
the emitted driving segment covers 16 km, while the claimed four-way minimum
(including the battery-range term, which here is negative) is -5/2 km: the
code excludes a non-positive battery range from the minimum instead of
taking it. -/
theorem segment_distance_fourway_min_counterexample :
    (planDailySegments 3 flatSinAtan emptySlopeAt 0 16 20 [] paramsShort).map
        (fun r => r.segments.head?.map fun sg => sg.distance)
      = some (some 16)
    ∧ min ((((20:ℚ) - 25) / 100 * 5) / (1 / 10)) (min ((80:ℚ) * 8) 16) = -5/2
    ∧ (16:ℚ) ≠ -5/2 :=
  ⟨by decide, by norm_num, by norm_num⟩

lemma div_one_div (a e : ℚ) : a / (1 / e) = a * e := by
  rw [one_div, div_inv_eq_mul]

lemma applyControlStop_segments_extend (p : SimulationParameters)
    (stO : Option ControlStop) (s : DayPlanState) :
    ∃ tail, (applyControlStop p stO s).segments = s.segments ++ tail := by
  unfold applyControlStop
  cases stO with
  | none => exact ⟨[], by simp⟩
  | some st =>
      dsimp only
      by_cases h : |s.currentPosition - st.distance| < (0.1 : ℚ)
      · rw [if_pos h]
        exact ⟨_, rfl⟩
      · rw [if_neg h]
        exact ⟨[], by simp⟩

lemma applyLowBatteryCharge_segments_extend (p : SimulationParameters)
    (s : DayPlanState) :
    ∃ tail, (applyLowBatteryCharge p s).segments = s.segments ++ tail := by
  unfold applyLowBatteryCharge
  split
  · exact ⟨_, rfl⟩
  · exact ⟨[], by simp⟩

lemma stepCore_segments_shape (sinAtan : ℚ → ℚ) (slopeAt : ℚ → ℚ → ℚ)
    (p : SimulationParameters) (s : DayPlanState) :
    ∃ rest, (stepCore sinAtan slopeAt p s).segments
      = s.segments ++ (drivingSegment sinAtan slopeAt p s :: rest) := by
  obtain ⟨t2, h2⟩ := applyControlStop_segments_extend p (nextControlStop s)
    (afterDriving sinAtan slopeAt p s)
  obtain ⟨t3, h3⟩ := applyLowBatteryCharge_segments_extend p
    (applyControlStop p (nextControlStop s) (afterDriving sinAtan slopeAt p s))
  refine ⟨t2 ++ t3, ?_⟩
  unfold stepCore
  rw [h3, h2]
  have hd : (afterDriving sinAtan slopeAt p s).segments
      = s.segments ++ [drivingSegment sinAtan slopeAt p s] := rfl
  rw [hd]
  simp

/-- C5 (amended): every loop iteration that emits a `Driving` segment gives
it the distance
`min(distance-to-next-control-stop (∞ if none), battery-range-to-threshold if
that range is positive (∞ otherwise), hours-budget distance, remaining route
distance)`: the battery term is `(soc - threshold)/100 * 5 kWh * efficiency`
and participates in the minimum only when it is positive. -/
theorem segment_distance_min_with_positive_battery_range (sinAtan : ℚ → ℚ)
    (slopeAt : ℚ → ℚ → ℚ) (p : SimulationParameters) (s : DayPlanState)
    (hdrive : ¬ segmentDrivingTime p s ≤ 0) :
    (((planStep sinAtan slopeAt p s).state.segments.drop s.segments.length).head?
        = some (drivingSegment sinAtan slopeAt p s))
      ∧ (drivingSegment sinAtan slopeAt p s).distance
        = minO ((s.upcomingControlStops.head?).map fun st => st.distance - s.currentPosition)
            (if 0 < (s.currentBatteryLevel - p.lowBatteryThreshold) / 100
                    * BATTERY_CAPACITY * p.energyEfficiency then
              min ((s.currentBatteryLevel - p.lowBatteryThreshold) / 100
                    * BATTERY_CAPACITY * p.energyEfficiency)
                (min (p.averageSpeed * s.remainingDrivingHours) s.remainingDistance)
            else min (p.averageSpeed * s.remainingDrivingHours) s.remainingDistance) := by
  constructor
  · obtain ⟨rest, hshape⟩ := stepCore_segments_shape sinAtan slopeAt p s
    have hseg : (planStep sinAtan slopeAt p s).state.segments
        = (stepCore sinAtan slopeAt p s).segments := by
      rcases planStep_state_cases sinAtan slopeAt p s hdrive with h | h <;> rw [h]
    rw [hseg, hshape, List.drop_left]
    rfl
  · show segmentDistance p s = _
    unfold segmentDistance maxBatteryDistance maxSegmentDistance distanceToNextStop
      nextControlStop
    rw [div_one_div]
    rcases h : s.upcomingControlStops.head? with _ | st
    · simp only [Option.map_none, minO]
      split <;> simp [minO, Option.elim]
    · simp only [Option.map_some, minO]
      split <;> simp [minO, Option.elim]

/-- Day-loop state at the start of the 16 km run with a full battery. -/
def stateStart16 : DayPlanState :=
  { segments := []
    totalDistance := 0
    dailyEnergyConsumption := 0
    dailyChargingTime := 0
    remainingDrivingHours := 8
    currentBatteryLevel := 100
    currentPosition := 0
    dayCompleted := false
    currentTime := 10
    remainingDistance := 16
    upcomingControlStops := [] }

/-- Witness for C5 (amended) on the first iteration of the 16 km run. -/
theorem segment_distance_min_witness :
    ¬ segmentDrivingTime paramsShort stateStart16 ≤ 0 ∧
      (((planStep flatSinAtan emptySlopeAt paramsShort
            stateStart16).state.segments.drop stateStart16.segments.length).head?
          = some (drivingSegment flatSinAtan emptySlopeAt paramsShort stateStart16))
      ∧ (drivingSegment flatSinAtan emptySlopeAt paramsShort stateStart16).distance
        = minO ((stateStart16.upcomingControlStops.head?).map
              fun st => st.distance - stateStart16.currentPosition)
            (if 0 < (stateStart16.currentBatteryLevel - paramsShort.lowBatteryThreshold) / 100
                    * BATTERY_CAPACITY * paramsShort.energyEfficiency then
              min ((stateStart16.currentBatteryLevel - paramsShort.lowBatteryThreshold) / 100
                    * BATTERY_CAPACITY * paramsShort.energyEfficiency)
                (min (paramsShort.averageSpeed * stateStart16.remainingDrivingHours)
                  stateStart16.remainingDistance)
            else min (paramsShort.averageSpeed * stateStart16.remainingDrivingHours)
              stateStart16.remainingDistance) :=
  ⟨by decide,
    segment_distance_min_with_positive_battery_range flatSinAtan emptySlopeAt paramsShort
      stateStart16 (by decide)⟩

/-! ## Loop invariants of the day loop -/

lemma minO_le (o : Option ℚ) (x : ℚ) : minO o x ≤ x := by
  cases o with
  | none => exact le_refl x
  | some v => exact min_le_right v x

lemma segmentDistance_le_remaining (p : SimulationParameters) (s : DayPlanState) :
    segmentDistance p s ≤ s.remainingDistance := by
  unfold segmentDistance
  refine le_trans (minO_le _ _) (le_trans (minO_le _ _) (min_le_right _ _))

lemma segmentDistance_pos (p : SimulationParameters) (s : DayPlanState)
    (hsp : 0 ≤ p.averageSpeed) (h : ¬ segmentDrivingTime p s ≤ 0) :
    0 < segmentDistance p s := by
  have ht : 0 < segmentDrivingTime p s := lt_of_not_le h
  unfold segmentDrivingTime at ht
  rcases eq_or_lt_of_le hsp with hz | hpos
  · rw [← hz, div_zero] at ht
    exact absurd ht (lt_irrefl 0)
  · rcases div_pos_iff.mp ht with ⟨hd, _⟩ | ⟨_, hneg⟩
    · exact hd
    · exact absurd hpos (not_lt.mpr (le_of_lt hneg))

lemma stepCore_fields (sinAtan : ℚ → ℚ) (slopeAt : ℚ → ℚ → ℚ)
    (p : SimulationParameters) (s : DayPlanState) :
    (stepCore sinAtan slopeAt p s).currentPosition
        = s.currentPosition + segmentDistance p s
      ∧ (stepCore sinAtan slopeAt p s).remainingDistance
        = s.remainingDistance - segmentDistance p s
      ∧ (stepCore sinAtan slopeAt p s).totalDistance
        = s.totalDistance + segmentDistance p s
      ∧ (stepCore sinAtan slopeAt p s).remainingDrivingHours
        = s.remainingDrivingHours - segmentDrivingTime p s := by
  unfold stepCore applyLowBatteryCharge applyControlStop
  cases nextControlStop s with
  | none =>
      dsimp only
      split <;> exact ⟨rfl, rfl, rfl, rfl⟩
  | some st =>
      dsimp only
      split <;> split <;> exact ⟨rfl, rfl, rfl, rfl⟩

lemma runPlanLoop_invariant (sinAtan : ℚ → ℚ) (slopeAt : ℚ → ℚ → ℚ)
    (p : SimulationParameters) (P : DayPlanState → Prop)
    (hstep : ∀ s, dayLoopGuard s → P s → P (planStep sinAtan slopeAt p s).state) :
    ∀ fuel s r, P s → runPlanLoop sinAtan slopeAt p fuel s = some r → P r := by
  intro fuel
  induction fuel with
  | zero =>
      intro s r _ h
      exact absurd h (by simp [runPlanLoop])
  | succ n ih =>
      intro s r hP hrun
      unfold runPlanLoop at hrun
      by_cases hg : dayLoopGuard s
      · rw [if_pos hg] at hrun
        cases hout : planStep sinAtan slopeAt p s with
        | cont s' =>
            rw [hout] at hrun
            have hP' : P s' := by
              have := hstep s hg hP
              rwa [hout] at this
            exact ih s' r hP' hrun
        | stop s' =>
            rw [hout] at hrun
            have hP' : P s' := by
              have := hstep s hg hP
              rwa [hout] at this
            cases hrun
            exact hP'
      · rw [if_neg hg] at hrun
        cases hrun
        exact hP

lemma planStep_cases_all (sinAtan : ℚ → ℚ) (slopeAt : ℚ → ℚ → ℚ)
    (p : SimulationParameters) (s : DayPlanState) :
    (planStep sinAtan slopeAt p s).state = s ∨
      (¬ segmentDrivingTime p s ≤ 0 ∧
        ((planStep sinAtan slopeAt p s).state = stepCore sinAtan slopeAt p s ∨
          (planStep sinAtan slopeAt p s).state
            = { stepCore sinAtan slopeAt p s with dayCompleted := true })) := by
  by_cases h : segmentDrivingTime p s ≤ 0
  · left
    unfold planStep
    rw [if_pos h]
    rfl
  · right
    exact ⟨h, planStep_state_cases sinAtan slopeAt p s h⟩

/-! ## C10 — the planner's returned state is distance-conserving -/

lemma planDailySegments_conservation (fuel : ℕ) (sinAtan : ℚ → ℚ)
    (slopeAt : ℚ → ℚ → ℚ) (currentKm remainingDistance batteryLevel : ℚ)
    (controlStops : List ControlStop) (p : SimulationParameters)
    (res : DailySegmentPlanResult)
    (hsp : 0 ≤ p.averageSpeed)
    (h : planDailySegments fuel sinAtan slopeAt currentKm remainingDistance
          batteryLevel controlStops p = some res) :
    res.currentKm = currentKm + res.totalDistance
      ∧ res.remainingDistance = remainingDistance - res.totalDistance
      ∧ 0 ≤ res.totalDistance := by
  unfold planDailySegments at h
  rcases Option.map_eq_some'.mp h with ⟨send, hrun, hres⟩
  have key : send.currentPosition = currentKm + send.totalDistance
      ∧ send.remainingDistance = remainingDistance - send.totalDistance
      ∧ 0 ≤ send.totalDistance := by
    refine runPlanLoop_invariant sinAtan slopeAt p
      (fun s => s.currentPosition = currentKm + s.totalDistance
        ∧ s.remainingDistance = remainingDistance - s.totalDistance
        ∧ 0 ≤ s.totalDistance) ?_ fuel _ send ?_ hrun
    · intro s _ hP
      rcases planStep_cases_all sinAtan slopeAt p s with hcase | ⟨hdrive, hcase⟩
      · rw [hcase]; exact hP
      · obtain ⟨hpos, hrem', htot, _⟩ := stepCore_fields sinAtan slopeAt p s
        have hd : 0 < segmentDistance p s := segmentDistance_pos p s hsp hdrive
        have hfields : (planStep sinAtan slopeAt p s).state.currentPosition
              = s.currentPosition + segmentDistance p s
            ∧ (planStep sinAtan slopeAt p s).state.remainingDistance
              = s.remainingDistance - segmentDistance p s
            ∧ (planStep sinAtan slopeAt p s).state.totalDistance
              = s.totalDistance + segmentDistance p s := by
          rcases hcase with hcase | hcase <;> rw [hcase] <;> exact ⟨hpos, hrem', htot⟩
        refine ⟨?_, ?_, ?_⟩
        · rw [hfields.1, hfields.2.2, hP.1]; ring
        · rw [hfields.2.1, hfields.2.2, hP.2.1]; ring
        · rw [hfields.2.2]; linarith [hP.2.2]
    · exact ⟨by simp, by simp, le_refl 0⟩
  rw [← hres]
  exact key

/-- C10: for every terminating call of `planDailySegments` with non-negative
inputs and a non-negative average speed, the returned state conserves
distance: `currentKm` grows by exactly `totalDistance`, `remainingDistance`
shrinks by exactly `totalDistance`, and `totalDistance` is non-negative. -/
theorem planDailySegments_distance_conserving (fuel : ℕ) (sinAtan : ℚ → ℚ)
    (slopeAt : ℚ → ℚ → ℚ) (currentKm remainingDistance batteryLevel : ℚ)
    (controlStops : List ControlStop) (p : SimulationParameters)
    (res : DailySegmentPlanResult)
    (_hkm : 0 ≤ currentKm) (_hrem : 0 ≤ remainingDistance) (_hbat : 0 ≤ batteryLevel)
    (hsp : 0 ≤ p.averageSpeed)
    (h : planDailySegments fuel sinAtan slopeAt currentKm remainingDistance
          batteryLevel controlStops p = some res) :
    res.currentKm = currentKm + res.totalDistance
      ∧ res.remainingDistance = remainingDistance - res.totalDistance
      ∧ 0 ≤ res.totalDistance :=
  planDailySegments_conservation fuel sinAtan slopeAt currentKm remainingDistance
    batteryLevel controlStops p res hsp h

/-- The single driving segment of the 16 km run. -/
def segment16 : RouteSegment :=
  { startKm := 0
    endKm := 16
    distance := 16
    isControlStop := false
    controlStopName := none
    batteryChargingStop := false
    batteryLevelBefore := 100
    batteryLevelAfter := 568900/7371
    chargingTime := none
    segmentType := SegmentType.Driving
    startTime := 10
    endTime := 51/5 }

/-- The state returned by the planner on the 16 km run. -/
def planResult16 : DailySegmentPlanResult :=
  { segments := [segment16]
    currentKm := 16
    remainingDistance := 0
    batteryLevel := 568900/7371
    totalDistance := 16
    dailyEnergyConsumption := 81/100
    dailyChargingTime := 0 }

/-- Witness for C10 on the terminating 16 km planner run. -/
theorem planDailySegments_distance_conserving_witness :
    planDailySegments 5 flatSinAtan emptySlopeAt 0 16 100 [] paramsShort
        = some planResult16
      ∧ planResult16.currentKm = 0 + planResult16.totalDistance
      ∧ planResult16.remainingDistance = 16 - planResult16.totalDistance
      ∧ 0 ≤ planResult16.totalDistance :=
  ⟨by decide,
    planDailySegments_distance_conserving 5 flatSinAtan emptySlopeAt 0 16 100 [] paramsShort
      planResult16 (by norm_num) (by norm_num) (by norm_num)
      (by norm_num [paramsShort]) (by decide)⟩

/-! ## A generic invariant lemma for the multi-day loop -/

lemma runDays_invariant (plannerFuel : ℕ) (oracle : ℕ → ℚ → Option ℚ)
    (dayOfMonth : ℕ → ℕ) (sinAtan : ℚ → ℚ) (slopeAt : ℚ → ℚ → ℚ)
    (controlStops : List ControlStop) (p : SimulationParameters)
    (P : SimState → Prop)
    (hbump : ∀ s, P s → P { s with currentDay := s.currentDay + 1 })
    (hpush : ∀ s dayPlan, 0 < s.remainingDistance →
      planDailySegments plannerFuel sinAtan slopeAt s.currentKm s.remainingDistance
          s.batteryLevel controlStops p = some dayPlan →
      ¬ dayPlan.segments = [] → P s → P (pushDay p s dayPlan))
    (hstuck : ∀ s c r, P s →
      P { s with stuckCounter := c, previousRemainingDistance := r })
    (hmorning : ∀ s o d, P s →
      P { s with batteryLevel := calculateMorningCharge o d s.batteryLevel p.mpptEfficiency })
    (hdest : ∀ s, p.totalDistance ≤ s.currentKm → P s →
      P { s with remainingDistance := 0 }) :
    ∀ n s r, P s →
      runDays plannerFuel oracle dayOfMonth sinAtan slopeAt controlStops p n s = some r →
      P r := by
  intro n
  induction n with
  | zero =>
      intro s r hP h
      cases h
      exact hP
  | succ n ih =>
      intro s r hP h
      unfold runDays at h
      by_cases hg : 0 < s.remainingDistance
      · rw [if_pos hg] at h
        cases hplan : planDailySegments plannerFuel sinAtan slopeAt s.currentKm
            s.remainingDistance s.batteryLevel controlStops p with
        | none =>
            rw [hplan] at h
            exact absurd h (by simp)
        | some dayPlan =>
            rw [hplan] at h
            dsimp only at h
            by_cases hempty : dayPlan.segments = []
            · rw [if_pos hempty] at h
              cases h
              exact hbump s hP
            · rw [if_neg hempty] at h
              have hP1 : P (pushDay p s dayPlan) := hpush s dayPlan hg hplan hempty hP
              by_cases hA : |(pushDay p s dayPlan).remainingDistance
                    - s.previousRemainingDistance| < 0.001 ∧ 3 ≤ s.stuckCounter + 1
              · rw [if_pos hA] at h
                cases h
                exact hstuck (pushDay p s dayPlan) _ _ hP1
              · rw [if_neg hA] at h
                by_cases hB : |(pushDay p s dayPlan).remainingDistance
                      - s.previousRemainingDistance| < 0.001
                · rw [if_pos hB] at h
                  have hP2 : P { pushDay p s dayPlan with
                      stuckCounter := s.stuckCounter + 1,
                      previousRemainingDistance := (pushDay p s dayPlan).remainingDistance } :=
                    hstuck _ _ _ hP1
                  by_cases hC : 0 < ({ pushDay p s dayPlan with
                      stuckCounter := s.stuckCounter + 1,
                      previousRemainingDistance :=
                        (pushDay p s dayPlan).remainingDistance } : SimState).remainingDistance
                  · rw [if_pos hC] at h
                    have hP3 := hmorning _ (oracle s.currentDay (4/24))
                      (dayOfMonth s.currentDay) hP2
                    by_cases hD : p.totalDistance ≤ ({ pushDay p s dayPlan with
                        stuckCounter := s.stuckCounter + 1,
                        previousRemainingDistance :=
                          (pushDay p s dayPlan).remainingDistance } : SimState).currentKm
                    · rw [if_pos hD] at h
                      cases h
                      exact hdest _ hD hP3
                    · rw [if_neg hD] at h
                      exact ih _ r hP3 h
                  · rw [if_neg hC] at h
                    by_cases hD : p.totalDistance ≤ ({ pushDay p s dayPlan with
                        stuckCounter := s.stuckCounter + 1,
                        previousRemainingDistance :=
                          (pushDay p s dayPlan).remainingDistance } : SimState).currentKm
                    · rw [if_pos hD] at h
                      cases h
                      exact hdest _ hD hP2
                    · rw [if_neg hD] at h
                      exact ih _ r hP2 h
                · rw [if_neg hB] at h
                  have hP2 : P { pushDay p s dayPlan with
                      stuckCounter := 0,
                      previousRemainingDistance := (pushDay p s dayPlan).remainingDistance } :=
                    hstuck _ _ _ hP1
                  by_cases hC : 0 < ({ pushDay p s dayPlan with
                      stuckCounter := 0,
                      previousRemainingDistance :=
                        (pushDay p s dayPlan).remainingDistance } : SimState).remainingDistance
                  · rw [if_pos hC] at h
                    have hP3 := hmorning _ (oracle s.currentDay (4/24))
                      (dayOfMonth s.currentDay) hP2
                    by_cases hD : p.totalDistance ≤ ({ pushDay p s dayPlan with
                        stuckCounter := 0,
                        previousRemainingDistance :=
                          (pushDay p s dayPlan).remainingDistance } : SimState).currentKm
                    · rw [if_pos hD] at h
                      cases h
                      exact hdest _ hD hP3
                    · rw [if_neg hD] at h
                      exact ih _ r hP3 h
                  · rw [if_neg hC] at h
                    by_cases hD : p.totalDistance ≤ ({ pushDay p s dayPlan with
                        stuckCounter := 0,
                        previousRemainingDistance :=
                          (pushDay p s dayPlan).remainingDistance } : SimState).currentKm
                    · rw [if_pos hD] at h
                      cases h
                      exact hdest _ hD hP2
                    · rw [if_neg hD] at h
                      exact ih _ r hP2 h
      · rw [if_neg hg] at h
        cases h
        exact hP

/-! ## Battery-range invariants (towards C2) -/

/-- Day-loop invariant: all emitted segments have in-range battery fields and
the running SoC is a valid percentage. -/
def stateBatteryOK (s : DayPlanState) : Prop :=
  (∀ seg ∈ s.segments, segOK seg) ∧
    0 ≤ s.currentBatteryLevel ∧ s.currentBatteryLevel ≤ 100

lemma afterDriving_batteryOK (sinAtan : ℚ → ℚ) (slopeAt : ℚ → ℚ → ℚ)
    (p : SimulationParameters) (s : DayPlanState) (hP : stateBatteryOK s) :
    stateBatteryOK (afterDriving sinAtan slopeAt p s) := by
  obtain ⟨hsegs, hb0, hb1⟩ := hP
  refine ⟨?_, updateBatteryLevel_after_nonneg _ _ _ _, updateBatteryLevel_after_le _ _ _ _⟩
  intro seg hseg
  rcases List.mem_append.mp hseg with hm | hm
  · exact hsegs seg hm
  · rw [List.mem_singleton.mp hm]
    exact ⟨hb0, hb1, updateBatteryLevel_after_nonneg _ _ _ _, updateBatteryLevel_after_le _ _ _ _⟩

lemma applyControlStop_batteryOK (p : SimulationParameters)
    (stO : Option ControlStop) (s : DayPlanState) (hP : stateBatteryOK s) :
    stateBatteryOK (applyControlStop p stO s) := by
  obtain ⟨hsegs, hb0, hb1⟩ := hP
  unfold applyControlStop
  cases stO with
  | none => exact ⟨hsegs, hb0, hb1⟩
  | some st =>
      dsimp only
      by_cases h : |s.currentPosition - st.distance| < (0.1 : ℚ)
      · rw [if_pos h]
        refine ⟨?_, hb0, hb1⟩
        intro seg hseg
        rcases List.mem_append.mp hseg with hm | hm
        · exact hsegs seg hm
        · rw [List.mem_singleton.mp hm]
          exact ⟨hb0, hb1, hb0, hb1⟩
      · rw [if_neg h]
        exact ⟨hsegs, hb0, hb1⟩

lemma applyLowBatteryCharge_batteryOK (p : SimulationParameters)
    (s : DayPlanState) (hP : stateBatteryOK s) :
    stateBatteryOK (applyLowBatteryCharge p s) := by
  obtain ⟨hsegs, hb0, hb1⟩ := hP
  have hafter0 : (0:ℚ) ≤ min 100 (s.currentBatteryLevel + 75) :=
    le_min (by norm_num) (by linarith)
  have hafter1 : min (100:ℚ) (s.currentBatteryLevel + 75) ≤ 100 := min_le_left _ _
  unfold applyLowBatteryCharge
  split
  · refine ⟨?_, hafter0, hafter1⟩
    intro seg hseg
    rcases List.mem_append.mp hseg with hm | hm
    · exact hsegs seg hm
    · rw [List.mem_singleton.mp hm]
      exact ⟨hb0, hb1, hafter0, hafter1⟩
  · exact ⟨hsegs, hb0, hb1⟩

lemma stepCore_batteryOK (sinAtan : ℚ → ℚ) (slopeAt : ℚ → ℚ → ℚ)
    (p : SimulationParameters) (s : DayPlanState) (hP : stateBatteryOK s) :
    stateBatteryOK (stepCore sinAtan slopeAt p s) :=
  applyLowBatteryCharge_batteryOK p _
    (applyControlStop_batteryOK p _ _ (afterDriving_batteryOK sinAtan slopeAt p s hP))

lemma planDailySegments_batteryOK (fuel : ℕ) (sinAtan : ℚ → ℚ)
    (slopeAt : ℚ → ℚ → ℚ) (currentKm remainingDistance batteryLevel : ℚ)
    (controlStops : List ControlStop) (p : SimulationParameters)
    (res : DailySegmentPlanResult)
    (hb0 : 0 ≤ batteryLevel) (hb1 : batteryLevel ≤ 100)
    (h : planDailySegments fuel sinAtan slopeAt currentKm remainingDistance
          batteryLevel controlStops p = some res) :
    (∀ seg ∈ res.segments, segOK seg) ∧
      0 ≤ res.batteryLevel ∧ res.batteryLevel ≤ 100 := by
  unfold planDailySegments at h
  rcases Option.map_eq_some'.mp h with ⟨send, hrun, hres⟩
  have key : stateBatteryOK send := by
    refine runPlanLoop_invariant sinAtan slopeAt p stateBatteryOK ?_ fuel _ send ?_ hrun
    · intro s _ hP
      rcases planStep_cases_all sinAtan slopeAt p s with hcase | ⟨_, hcase | hcase⟩ <;>
        rw [hcase]
      · exact hP
      · exact stepCore_batteryOK sinAtan slopeAt p s hP
      · exact stepCore_batteryOK sinAtan slopeAt p s hP
    · exact ⟨fun seg hseg => absurd hseg (by simp), hb0, hb1⟩
  rw [← hres]
  exact ⟨key.1, key.2.1, key.2.2⟩

/-! ## Post-loop bookkeeping lemmas -/

lemma createRouteItineraryAux_elim (plannerFuel : ℕ) (oracle : ℕ → ℚ → Option ℚ)
    (dayOfMonth : ℕ → ℕ) (sinAtan : ℚ → ℚ) (slopeAt : ℚ → ℚ → ℚ)
    (controlStops : List ControlStop) (p : SimulationParameters)
    (fs : SimState) (r : RouteItinerary)
    (h : createRouteItineraryAux plannerFuel oracle dayOfMonth sinAtan slopeAt
          controlStops p = some (fs, r)) :
    ∃ days,
      runDays plannerFuel oracle dayOfMonth sinAtan slopeAt controlStops p
          p.maxDays (initSimState p) = some fs
        ∧ fillProduction oracle p
            ((if p.maxDays ≤ fs.currentDay then setLastFlag fs.dailyItinerary
              else fs.dailyItinerary).filter fun d => decide (0 < d.totalDistance))
          = some days
        ∧ r = assembleItinerary p controlStops days := by
  unfold createRouteItineraryAux at h
  cases hrun : runDays plannerFuel oracle dayOfMonth sinAtan slopeAt controlStops p
      p.maxDays (initSimState p) with
  | none =>
      rw [hrun] at h
      exact absurd h (by simp)
  | some fs' =>
      rw [hrun] at h
      dsimp only at h
      cases hfill : fillProduction oracle p
          ((if p.maxDays ≤ fs'.currentDay then setLastFlag fs'.dailyItinerary
            else fs'.dailyItinerary).filter fun d => decide (0 < d.totalDistance)) with
      | none =>
          rw [hfill] at h
          exact absurd h (by simp)
      | some days =>
          rw [hfill] at h
          have hp : fs' = fs ∧ assembleItinerary p controlStops days = r := by
            have := Option.some.inj h
            exact ⟨congrArg Prod.fst this, congrArg Prod.snd this⟩
          obtain ⟨h1, h2⟩ := hp
          subst h1
          exact ⟨days, rfl, hfill, h2.symm⟩

lemma setLastFlag_map_segments (l : List DailyItinerary) :
    (setLastFlag l).map (fun d => d.segments) = l.map fun d => d.segments := by
  induction l with
  | nil => rfl
  | cons d rest ih =>
      cases rest with
      | nil => rfl
      | cons e rest' =>
          show _ :: (setLastFlag (e :: rest')).map (fun d => d.segments) = _
          rw [ih]
          rfl

lemma setLastFlag_map_totalDistance (l : List DailyItinerary) :
    (setLastFlag l).map (fun d => d.totalDistance) = l.map fun d => d.totalDistance := by
  induction l with
  | nil => rfl
  | cons d rest ih =>
      cases rest with
      | nil => rfl
      | cons e rest' =>
          show _ :: (setLastFlag (e :: rest')).map (fun d => d.totalDistance) = _
          rw [ih]
          rfl

lemma fillProduction_map_segments (oracle : ℕ → ℚ → Option ℚ)
    (p : SimulationParameters) :
    ∀ l l', fillProduction oracle p l = some l' →
      l'.map (fun d => d.segments) = l.map fun d => d.segments := by
  intro l
  induction l with
  | nil =>
      intro l' h
      cases h
      rfl
  | cons d rest ih =>
      intro l' h
      unfold fillProduction at h
      cases ho : oracle d.date (8/24) with
      | none => rw [ho] at h; exact absurd h (by simp)
      | some prod =>
          rw [ho] at h
          dsimp only at h
          rcases Option.map_eq_some'.mp h with ⟨rest', hrest, hl'⟩
          rw [← hl']
          show _ :: rest'.map (fun d => d.segments) = _
          rw [ih rest' hrest]
          rfl

lemma fillProduction_map_totalDistance (oracle : ℕ → ℚ → Option ℚ)
    (p : SimulationParameters) :
    ∀ l l', fillProduction oracle p l = some l' →
      l'.map (fun d => d.totalDistance) = l.map fun d => d.totalDistance := by
  intro l
  induction l with
  | nil =>
      intro l' h
      cases h
      rfl
  | cons d rest ih =>
      intro l' h
      unfold fillProduction at h
      cases ho : oracle d.date (8/24) with
      | none => rw [ho] at h; exact absurd h (by simp)
      | some prod =>
          rw [ho] at h
          dsimp only at h
          rcases Option.map_eq_some'.mp h with ⟨rest', hrest, hl'⟩
          rw [← hl']
          show _ :: rest'.map (fun d => d.totalDistance) = _
          rw [ih rest' hrest]
          rfl

lemma fillProduction_map_flags (oracle : ℕ → ℚ → Option ℚ)
    (p : SimulationParameters) :
    ∀ l l', fillProduction oracle p l = some l' → flagList l' = flagList l := by
  intro l
  induction l with
  | nil =>
      intro l' h
      cases h
      rfl
  | cons d rest ih =>
      intro l' h
      unfold fillProduction at h
      cases ho : oracle d.date (8/24) with
      | none => rw [ho] at h; exact absurd h (by simp)
      | some prod =>
          rw [ho] at h
          dsimp only at h
          rcases Option.map_eq_some'.mp h with ⟨rest', hrest, hl'⟩
          rw [← hl']
          show _ :: flagList rest' = _
          rw [ih rest' hrest]
          rfl

/-- Trip-loop invariant: valid battery percentage and in-range segments. -/
def simBatteryOK (s : SimState) : Prop :=
  (0 ≤ s.batteryLevel ∧ s.batteryLevel ≤ 100) ∧
    ∀ d ∈ s.dailyItinerary, ∀ seg ∈ d.segments, segOK seg

lemma runDays_batteryOK (plannerFuel : ℕ) (oracle : ℕ → ℚ → Option ℚ)
    (dayOfMonth : ℕ → ℕ) (sinAtan : ℚ → ℚ) (slopeAt : ℚ → ℚ → ℚ)
    (controlStops : List ControlStop) (p : SimulationParameters)
    (n : ℕ) (s fs : SimState) (hP : simBatteryOK s)
    (h : runDays plannerFuel oracle dayOfMonth sinAtan slopeAt controlStops p n s
        = some fs) :
    simBatteryOK fs := by
  refine runDays_invariant plannerFuel oracle dayOfMonth sinAtan slopeAt controlStops p
    simBatteryOK ?_ ?_ ?_ ?_ ?_ n s fs hP h
  · exact fun s h => h
  · intro s dayPlan _ hplan hne hQ
    obtain ⟨hsegs, hb0, hb1⟩ :=
      planDailySegments_batteryOK plannerFuel sinAtan slopeAt s.currentKm
        s.remainingDistance s.batteryLevel controlStops p dayPlan hQ.1.1 hQ.1.2 hplan
    refine ⟨⟨hb0, hb1⟩, ?_⟩
    intro d hd seg hseg
    rcases List.mem_append.mp hd with hm | hm
    · exact hQ.2 d hm seg hseg
    · rw [List.mem_singleton.mp hm] at hseg
      exact hsegs seg hseg
  · exact fun s c r h => h
  · intro s o d hQ
    exact ⟨calculateMorningCharge_mem o d s.batteryLevel p.mpptEfficiency hQ.1.1, hQ.2⟩
  · exact fun s _ h => h

/-! ## C2 — battery percentages of all returned segments stay in range -/

/-- C2: for every terminating run of `createRouteItinerary`, every segment of
every returned day (driving, control-stop or battery-charging) has
`batteryLevelBefore` and `batteryLevelAfter` in the closed range 0..100,
whatever the parameters and oracle answers. -/
theorem routeItinerary_battery_levels_in_range (plannerFuel : ℕ)
    (oracle : ℕ → ℚ → Option ℚ) (dayOfMonth : ℕ → ℕ) (sinAtan : ℚ → ℚ)
    (slopeAt : ℚ → ℚ → ℚ) (controlStops : List ControlStop)
    (p : SimulationParameters) (r : RouteItinerary)
    (h : createRouteItinerary plannerFuel oracle dayOfMonth sinAtan slopeAt
          controlStops p = some r) :
    ∀ day ∈ r.dailyItinerary, ∀ seg ∈ day.segments, segOK seg := by
  unfold createRouteItinerary at h
  rcases Option.map_eq_some'.mp h with ⟨⟨fs, r'⟩, haux, hr⟩
  cases hr
  obtain ⟨days, hrun, hfill, hassemble⟩ :=
    createRouteItineraryAux_elim plannerFuel oracle dayOfMonth sinAtan slopeAt
      controlStops p fs r' haux
  have hQ : simBatteryOK fs := by
    refine runDays_batteryOK plannerFuel oracle dayOfMonth sinAtan slopeAt controlStops
      p p.maxDays (initSimState p) fs ?_ hrun
    exact ⟨⟨by norm_num [initSimState], by norm_num [initSimState]⟩,
      fun d hd => absurd hd (by simp [initSimState])⟩
  have hdays : r'.dailyItinerary = days := by rw [hassemble]; rfl
  intro day hday seg hseg
  rw [hdays] at hday
  have hm1 : day.segments ∈ days.map fun d => d.segments :=
    List.mem_map_of_mem _ hday
  rw [fillProduction_map_segments oracle p _ days hfill] at hm1
  rcases List.mem_map.mp hm1 with ⟨d1, hd1mem, hd1eq⟩
  have hd1' := List.mem_of_mem_filter hd1mem
  by_cases hcap : p.maxDays ≤ fs.currentDay
  · rw [if_pos hcap] at hd1'
    have hm2 : d1.segments ∈ (setLastFlag fs.dailyItinerary).map fun d => d.segments :=
      List.mem_map_of_mem _ hd1'
    rw [setLastFlag_map_segments] at hm2
    rcases List.mem_map.mp hm2 with ⟨d0, hd0, hseq⟩
    refine hQ.2 d0 hd0 seg ?_
    rw [hseq, hd1eq]
    exact hseg
  · rw [if_neg hcap] at hd1'
    refine hQ.2 d1 hd1' seg ?_
    rw [hd1eq]
    exact hseg

/-- The single day of the 16 km run. -/
def day16 : DailyItinerary :=
  { day := 1
    date := 0
    segments := [segment16]
    startKm := 0
    endKm := 16
    totalDistance := 16
    energyProduction := 0
    energyConsumption := 81/100
    startBatteryLevel := 100
    endBatteryLevel := 568900/7371
    totalChargingTime := 0
    reachedMaxDays := false }

/-- The itinerary returned by the 16 km run. -/
def itinerary16 : RouteItinerary :=
  { totalDays := 1
    totalDistance := 16
    dailyItinerary := [day16]
    controlStops := []
    totalEnergyProduction := 0
    totalEnergyConsumption := 81/100
    estimatedArrivalDate := 0
    estimatedArrivalTime := 51/5
    totalChargingTime := 0
    averageBatteryLevel := 568900/7371 }

/-- Witness for C2 on the terminating 16 km run. -/
theorem routeItinerary_battery_levels_in_range_witness :
    createRouteItinerary 5 zeroOracle firstOfMonth flatSinAtan emptySlopeAt []
        paramsShort = some itinerary16
      ∧ segOK segment16 :=
  ⟨by decide,
    routeItinerary_battery_levels_in_range 5 zeroOracle firstOfMonth flatSinAtan
      emptySlopeAt [] paramsShort itinerary16 (by decide) day16
      (by simp [itinerary16]) segment16 (by simp [day16])⟩

/-! ## Distance bookkeeping invariants (towards C1) -/

lemma planDailySegments_remaining_nonneg (fuel : ℕ) (sinAtan : ℚ → ℚ)
    (slopeAt : ℚ → ℚ → ℚ) (currentKm remainingDistance batteryLevel : ℚ)
    (controlStops : List ControlStop) (p : SimulationParameters)
    (res : DailySegmentPlanResult) (hrem : 0 ≤ remainingDistance)
    (h : planDailySegments fuel sinAtan slopeAt currentKm remainingDistance
          batteryLevel controlStops p = some res) :
    0 ≤ res.remainingDistance := by
  unfold planDailySegments at h
  rcases Option.map_eq_some'.mp h with ⟨send, hrun, hres⟩
  have key : 0 ≤ send.remainingDistance := by
    refine runPlanLoop_invariant sinAtan slopeAt p
      (fun s => 0 ≤ s.remainingDistance) ?_ fuel _ send hrem hrun
    intro s _ hP
    rcases planStep_cases_all sinAtan slopeAt p s with hcase | ⟨_, hcase⟩
    · rw [hcase]; exact hP
    · have hle := segmentDistance_le_remaining p s
      obtain ⟨_, hrem', _, _⟩ := stepCore_fields sinAtan slopeAt p s
      have : 0 ≤ (stepCore sinAtan slopeAt p s).remainingDistance := by
        rw [hrem']; linarith
      rcases hcase with hcase | hcase <;> rw [hcase] <;> exact this
  rw [← hres]
  exact key

lemma planDailySegments_total_pos (fuel : ℕ) (sinAtan : ℚ → ℚ)
    (slopeAt : ℚ → ℚ → ℚ) (currentKm remainingDistance batteryLevel : ℚ)
    (controlStops : List ControlStop) (p : SimulationParameters)
    (res : DailySegmentPlanResult) (hv : 0 < p.averageSpeed)
    (h : planDailySegments fuel sinAtan slopeAt currentKm remainingDistance
          batteryLevel controlStops p = some res)
    (hne : ¬ res.segments = []) :
    0 < res.totalDistance := by
  unfold planDailySegments at h
  rcases Option.map_eq_some'.mp h with ⟨send, hrun, hres⟩
  have key : 0 ≤ send.totalDistance ∧ (¬ send.segments = [] → 0 < send.totalDistance) := by
    refine runPlanLoop_invariant sinAtan slopeAt p
      (fun s => 0 ≤ s.totalDistance ∧ (¬ s.segments = [] → 0 < s.totalDistance))
      ?_ fuel _ send ⟨le_refl 0, fun hc => absurd rfl hc⟩ hrun
    intro s _ hP
    rcases planStep_cases_all sinAtan slopeAt p s with hcase | ⟨hdrive, hcase⟩
    · rw [hcase]; exact hP
    · have hd : 0 < segmentDistance p s := segmentDistance_pos p s (le_of_lt hv) hdrive
      obtain ⟨_, _, htot, _⟩ := stepCore_fields sinAtan slopeAt p s
      have hpos : 0 < (stepCore sinAtan slopeAt p s).totalDistance := by
        rw [htot]; linarith [hP.1]
      rcases hcase with hcase | hcase <;> rw [hcase] <;>
        exact ⟨le_of_lt hpos, fun _ => hpos⟩
  rw [← hres] at hne ⊢
  exact key.2 hne

lemma sumDayDistances_append (l : List DailyItinerary) (d : DailyItinerary) :
    sumDayDistances (l ++ [d]) = sumDayDistances l + d.totalDistance := by
  unfold sumDayDistances
  rw [List.map_append, List.sum_append]
  simp

/-- Trip-loop invariant: the travelled and remaining distances are the running
sum of the pushed days' distances. -/
def simDistancesOK (p : SimulationParameters) (s : SimState) : Prop :=
  s.currentKm = sumDayDistances s.dailyItinerary
    ∧ s.remainingDistance = p.totalDistance - sumDayDistances s.dailyItinerary
    ∧ 0 ≤ s.remainingDistance

lemma runDays_distancesOK (plannerFuel : ℕ) (oracle : ℕ → ℚ → Option ℚ)
    (dayOfMonth : ℕ → ℕ) (sinAtan : ℚ → ℚ) (slopeAt : ℚ → ℚ → ℚ)
    (controlStops : List ControlStop) (p : SimulationParameters)
    (hv : 0 ≤ p.averageSpeed) (n : ℕ) (s fs : SimState)
    (hP : simDistancesOK p s)
    (h : runDays plannerFuel oracle dayOfMonth sinAtan slopeAt controlStops p n s
        = some fs) :
    simDistancesOK p fs := by
  refine runDays_invariant plannerFuel oracle dayOfMonth sinAtan slopeAt controlStops p
    (simDistancesOK p) ?_ ?_ ?_ ?_ ?_ n s fs hP h
  · exact fun s h => h
  · intro s dayPlan hg hplan _ hQ
    obtain ⟨hkm, hrem, _⟩ :=
      planDailySegments_conservation plannerFuel sinAtan slopeAt s.currentKm
        s.remainingDistance s.batteryLevel controlStops p dayPlan hv hplan
    have hrem0 := planDailySegments_remaining_nonneg plannerFuel sinAtan slopeAt
      s.currentKm s.remainingDistance s.batteryLevel controlStops p dayPlan
      (le_of_lt hg) hplan
    refine ⟨?_, ?_, hrem0⟩
    · show dayPlan.currentKm = sumDayDistances (s.dailyItinerary ++ [newDayOf p s dayPlan])
      rw [sumDayDistances_append, hkm, hQ.1]
      rfl
    · show dayPlan.remainingDistance
        = p.totalDistance - sumDayDistances (s.dailyItinerary ++ [newDayOf p s dayPlan])
      rw [sumDayDistances_append, hrem, hQ.2.1]
      have hnd : (newDayOf p s dayPlan).totalDistance = dayPlan.totalDistance := rfl
      rw [hnd]
      ring
  · exact fun s c r h => h
  · exact fun s o d h => h
  · intro s hdest hQ
    obtain ⟨hkm, hrem, hrem0⟩ := hQ
    have hzero : s.remainingDistance = 0 := by
      have : s.remainingDistance ≤ 0 := by rw [hrem]; rw [hkm] at hdest; linarith
      linarith
    refine ⟨hkm, ?_, le_refl 0⟩
    show (0:ℚ) = p.totalDistance - sumDayDistances s.dailyItinerary
    rw [← hrem, hzero]

lemma runDays_dayPos (plannerFuel : ℕ) (oracle : ℕ → ℚ → Option ℚ)
    (dayOfMonth : ℕ → ℕ) (sinAtan : ℚ → ℚ) (slopeAt : ℚ → ℚ → ℚ)
    (controlStops : List ControlStop) (p : SimulationParameters)
    (hv : 0 < p.averageSpeed) (n : ℕ) (s fs : SimState)
    (hP : ∀ d ∈ s.dailyItinerary, 0 < d.totalDistance)
    (h : runDays plannerFuel oracle dayOfMonth sinAtan slopeAt controlStops p n s
        = some fs) :
    ∀ d ∈ fs.dailyItinerary, 0 < d.totalDistance := by
  refine runDays_invariant plannerFuel oracle dayOfMonth sinAtan slopeAt controlStops p
    (fun s => ∀ d ∈ s.dailyItinerary, 0 < d.totalDistance) ?_ ?_ ?_ ?_ ?_ n s fs hP h
  · exact fun s h => h
  · intro s dayPlan _ hplan hne hQ
    intro d hd
    rcases List.mem_append.mp hd with hm | hm
    · exact hQ d hm
    · rw [List.mem_singleton.mp hm]
      exact planDailySegments_total_pos plannerFuel sinAtan slopeAt s.currentKm
        s.remainingDistance s.batteryLevel controlStops p dayPlan hv hplan hne
  · exact fun s c r h => h
  · exact fun s o d h => h
  · exact fun s _ h => h

lemma mem_setLastFlag_total (l : List DailyItinerary) (d' : DailyItinerary)
    (h : d' ∈ setLastFlag l) : ∃ d ∈ l, d.totalDistance = d'.totalDistance := by
  have hm : d'.totalDistance ∈ (setLastFlag l).map fun d => d.totalDistance :=
    List.mem_map_of_mem _ h
  rw [setLastFlag_map_totalDistance] at hm
  exact List.mem_map.mp hm

/-! ## C1 — distance accounting of the returned itinerary -/

/-- C1 counterexample: a run cut off by `maxDays = 1` (1000 km route, one
640 km day) returns `totalDistance = 1000` (the input parameter) while the
days of the itinerary sum to 640 km, so the claimed conservation equality
fails on runs that do not reach the destination. -/
theorem routeItinerary_conservation_counterexample :
    (createRouteItinerary 5 zeroOracle firstOfMonth flatSinAtan emptySlopeAt []
          paramsCutoff).map
        (fun r => (r.totalDistance, sumDayDistances r.dailyItinerary))
      = some (1000, 640)
    ∧ (1000 : ℚ) ≠ 640 :=
  ⟨by decide, by norm_num⟩

/-- C1 (amended): in every terminating run (with a positive average speed and
a non-negative route length), the returned `totalDistance` is the input route
length, every returned day has a positive `totalDistance`, and the days sum
to the input route length minus the remaining distance at loop exit — so the
claimed conservation equality holds exactly when the destination was
reached. -/
theorem routeItinerary_distance_accounting (plannerFuel : ℕ)
    (oracle : ℕ → ℚ → Option ℚ) (dayOfMonth : ℕ → ℕ) (sinAtan : ℚ → ℚ)
    (slopeAt : ℚ → ℚ → ℚ) (controlStops : List ControlStop)
    (p : SimulationParameters) (fs : SimState) (r : RouteItinerary)
    (hv : 0 < p.averageSpeed) (htot : 0 ≤ p.totalDistance)
    (h : createRouteItineraryAux plannerFuel oracle dayOfMonth sinAtan slopeAt
          controlStops p = some (fs, r)) :
    r.totalDistance = p.totalDistance
      ∧ sumDayDistances r.dailyItinerary = p.totalDistance - fs.remainingDistance
      ∧ ∀ d ∈ r.dailyItinerary, 0 < d.totalDistance := by
  obtain ⟨days, hrun, hfill, hassemble⟩ :=
    createRouteItineraryAux_elim plannerFuel oracle dayOfMonth sinAtan slopeAt
      controlStops p fs r h
  have hD : simDistancesOK p fs := by
    refine runDays_distancesOK plannerFuel oracle dayOfMonth sinAtan slopeAt
      controlStops p (le_of_lt hv) p.maxDays (initSimState p) fs ?_ hrun
    refine ⟨?_, ?_, ?_⟩
    · show (0:ℚ) = sumDayDistances []
      rfl
    · show p.totalDistance = p.totalDistance - sumDayDistances []
      show p.totalDistance = p.totalDistance - 0
      ring
    · exact htot
  have hpos : ∀ d ∈ fs.dailyItinerary, 0 < d.totalDistance := by
    refine runDays_dayPos plannerFuel oracle dayOfMonth sinAtan slopeAt controlStops p
      hv p.maxDays (initSimState p) fs ?_ hrun
    intro d hd
    exact absurd hd (by simp [initSimState])
  have hdays : r.dailyItinerary = days := by rw [hassemble]; rfl
  set flagged := (if p.maxDays ≤ fs.currentDay then setLastFlag fs.dailyItinerary
    else fs.dailyItinerary) with hflagged
  have hflag_pos : ∀ d ∈ flagged, 0 < d.totalDistance := by
    intro d hd
    rw [hflagged] at hd
    by_cases hcap : p.maxDays ≤ fs.currentDay
    · rw [if_pos hcap] at hd
      obtain ⟨d0, hd0, heq⟩ := mem_setLastFlag_total fs.dailyItinerary d hd
      rw [← heq]
      exact hpos d0 hd0
    · rw [if_neg hcap] at hd
      exact hpos d hd
  have hfilter : flagged.filter (fun d => decide (0 < d.totalDistance)) = flagged :=
    List.filter_eq_self.mpr fun a ha => decide_eq_true (hflag_pos a ha)
  have hsum : sumDayDistances days = sumDayDistances fs.dailyItinerary := by
    unfold sumDayDistances
    rw [fillProduction_map_totalDistance oracle p _ days hfill]
    rw [hfilter]
    rw [hflagged]
    by_cases hcap : p.maxDays ≤ fs.currentDay
    · rw [if_pos hcap, setLastFlag_map_totalDistance]
    · rw [if_neg hcap]
  refine ⟨by rw [hassemble]; rfl, ?_, ?_⟩
  · rw [hdays, hsum, hD.2.1]
    ring
  · intro d hd
    rw [hdays] at hd
    have hm : d.totalDistance ∈ days.map fun x => x.totalDistance :=
      List.mem_map_of_mem _ hd
    rw [fillProduction_map_totalDistance oracle p _ days hfill] at hm
    rw [hfilter] at hm
    rcases List.mem_map.mp hm with ⟨d1, hd1, heq⟩
    rw [← heq]
    exact hflag_pos d1 hd1

/-- The 640 km driving segment of the cut-off run. -/
def segmentCutoffDrive : RouteSegment :=
  { startKm := 0
    endKm := 640
    distance := 640
    isControlStop := false
    controlStopName := none
    batteryChargingStop := false
    batteryLevelBefore := 100
    batteryLevelAfter := 0
    chargingTime := none
    segmentType := SegmentType.Driving
    startTime := 10
    endTime := 18 }

/-- The low-battery charging stop of the cut-off run. -/
def segmentCutoffCharge : RouteSegment :=
  { startKm := 640
    endKm := 640
    distance := 0
    isControlStop := false
    controlStopName := none
    batteryChargingStop := true
    batteryLevelBefore := 0
    batteryLevelAfter := 75
    chargingTime := some 2
    segmentType := SegmentType.BatteryCharging
    startTime := 18
    endTime := 20 }

/-- The single (flagged) day of the cut-off run. -/
def dayCutoff : DailyItinerary :=
  { day := 1
    date := 0
    segments := [segmentCutoffDrive, segmentCutoffCharge]
    startKm := 0
    endKm := 640
    totalDistance := 640
    energyProduction := 0
    energyConsumption := 162/5
    startBatteryLevel := 100
    endBatteryLevel := 75
    totalChargingTime := 2
    reachedMaxDays := true }

/-- The final loop state of the cut-off run. -/
def finalStateCutoff : SimState :=
  { dailyItinerary := [dayCutoff]
    currentKm := 640
    remainingDistance := 360
    batteryLevel := 75
    currentDay := 1
    previousRemainingDistance := 360
    stuckCounter := 0 }

/-- The itinerary returned by the cut-off run. -/
def itineraryCutoff : RouteItinerary :=
  { totalDays := 1
    totalDistance := 1000
    dailyItinerary := [dayCutoff]
    controlStops := []
    totalEnergyProduction := 0
    totalEnergyConsumption := 162/5
    estimatedArrivalDate := 0
    estimatedArrivalTime := 20
    totalChargingTime := 2
    averageBatteryLevel := 75 }

/-- Witness for C1 (amended) on the cut-off run: the day sums to
`1000 - 360 = 640` km. -/
theorem routeItinerary_distance_accounting_witness :
    (0:ℚ) < paramsCutoff.averageSpeed ∧ (0:ℚ) ≤ paramsCutoff.totalDistance ∧
      createRouteItineraryAux 5 zeroOracle firstOfMonth flatSinAtan emptySlopeAt []
          paramsCutoff = some (finalStateCutoff, itineraryCutoff)
      ∧ itineraryCutoff.totalDistance = paramsCutoff.totalDistance
      ∧ sumDayDistances itineraryCutoff.dailyItinerary
        = paramsCutoff.totalDistance - finalStateCutoff.remainingDistance
      ∧ 0 < dayCutoff.totalDistance := by
  have key := routeItinerary_distance_accounting 5 zeroOracle firstOfMonth flatSinAtan
    emptySlopeAt [] paramsCutoff finalStateCutoff itineraryCutoff
    (by norm_num [paramsCutoff, paramsShort]) (by norm_num [paramsCutoff, paramsShort])
    (by decide)
  exact ⟨by norm_num [paramsCutoff, paramsShort], by norm_num [paramsCutoff, paramsShort],
    by decide, key.1, key.2.1, key.2.2 dayCutoff (by simp [itineraryCutoff])⟩

/-! ## A fueled invariant lemma for the multi-day loop: the loop guard
`currentDay < maxDays` is visible to the step hypotheses, because the fuel
equals `maxDays - currentDay` throughout the recursion. -/

lemma runDays_invariant_fuel (plannerFuel : ℕ) (oracle : ℕ → ℚ → Option ℚ)
    (dayOfMonth : ℕ → ℕ) (sinAtan : ℚ → ℚ) (slopeAt : ℚ → ℚ → ℚ)
    (controlStops : List ControlStop) (p : SimulationParameters)
    (P : SimState → Prop)
    (hbump : ∀ s, s.currentDay < p.maxDays → P s →
      P { s with currentDay := s.currentDay + 1 })
    (hpush : ∀ s dayPlan, s.currentDay < p.maxDays → 0 < s.remainingDistance →
      planDailySegments plannerFuel sinAtan slopeAt s.currentKm s.remainingDistance
          s.batteryLevel controlStops p = some dayPlan →
      ¬ dayPlan.segments = [] → P s → P (pushDay p s dayPlan))
    (hstuck : ∀ s c r, P s →
      P { s with stuckCounter := c, previousRemainingDistance := r })
    (hmorning : ∀ s o d, P s →
      P { s with batteryLevel := calculateMorningCharge o d s.batteryLevel p.mpptEfficiency })
    (hdest : ∀ s, p.totalDistance ≤ s.currentKm → P s →
      P { s with remainingDistance := 0 }) :
    ∀ n s r, s.currentDay + n = p.maxDays → P s →
      runDays plannerFuel oracle dayOfMonth sinAtan slopeAt controlStops p n s = some r →
      P r := by
  intro n
  induction n with
  | zero =>
      intro s r _ hP h
      cases h
      exact hP
  | succ n ih =>
      intro s r hrel hP h
      have hday : s.currentDay < p.maxDays := by omega
      unfold runDays at h
      by_cases hg : 0 < s.remainingDistance
      · rw [if_pos hg] at h
        cases hplan : planDailySegments plannerFuel sinAtan slopeAt s.currentKm
            s.remainingDistance s.batteryLevel controlStops p with
        | none =>
            rw [hplan] at h
            exact absurd h (by simp)
        | some dayPlan =>
            rw [hplan] at h
            dsimp only at h
            by_cases hempty : dayPlan.segments = []
            · rw [if_pos hempty] at h
              cases h
              exact hbump s hday hP
            · rw [if_neg hempty] at h
              have hP1 : P (pushDay p s dayPlan) :=
                hpush s dayPlan hday hg hplan hempty hP
              have hday1 : (pushDay p s dayPlan).currentDay = s.currentDay + 1 := rfl
              by_cases hA : |(pushDay p s dayPlan).remainingDistance
                    - s.previousRemainingDistance| < 0.001 ∧ 3 ≤ s.stuckCounter + 1
              · rw [if_pos hA] at h
                cases h
                exact hstuck (pushDay p s dayPlan) _ _ hP1
              · rw [if_neg hA] at h
                by_cases hB : |(pushDay p s dayPlan).remainingDistance
                      - s.previousRemainingDistance| < 0.001
                · rw [if_pos hB] at h
                  have hP2 : P { pushDay p s dayPlan with
                      stuckCounter := s.stuckCounter + 1,
                      previousRemainingDistance := (pushDay p s dayPlan).remainingDistance } :=
                    hstuck _ _ _ hP1
                  by_cases hC : 0 < ({ pushDay p s dayPlan with
                      stuckCounter := s.stuckCounter + 1,
                      previousRemainingDistance :=
                        (pushDay p s dayPlan).remainingDistance } : SimState).remainingDistance
                  · rw [if_pos hC] at h
                    have hP3 := hmorning _ (oracle s.currentDay (4/24))
                      (dayOfMonth s.currentDay) hP2
                    by_cases hD : p.totalDistance ≤ ({ pushDay p s dayPlan with
                        stuckCounter := s.stuckCounter + 1,
                        previousRemainingDistance :=
                          (pushDay p s dayPlan).remainingDistance } : SimState).currentKm
                    · rw [if_pos hD] at h
                      cases h
                      exact hdest _ hD hP3
                    · rw [if_neg hD] at h
                      exact ih _ r (by dsimp only [pushDay]; omega) hP3 h
                  · rw [if_neg hC] at h
                    by_cases hD : p.totalDistance ≤ ({ pushDay p s dayPlan with
                        stuckCounter := s.stuckCounter + 1,
                        previousRemainingDistance :=
                          (pushDay p s dayPlan).remainingDistance } : SimState).currentKm
                    · rw [if_pos hD] at h
                      cases h
                      exact hdest _ hD hP2
                    · rw [if_neg hD] at h
                      exact ih _ r (by dsimp only [pushDay]; omega) hP2 h
                · rw [if_neg hB] at h
                  have hP2 : P { pushDay p s dayPlan with
                      stuckCounter := 0,
                      previousRemainingDistance := (pushDay p s dayPlan).remainingDistance } :=
                    hstuck _ _ _ hP1
                  by_cases hC : 0 < ({ pushDay p s dayPlan with
                      stuckCounter := 0,
                      previousRemainingDistance :=
                        (pushDay p s dayPlan).remainingDistance } : SimState).remainingDistance
                  · rw [if_pos hC] at h
                    have hP3 := hmorning _ (oracle s.currentDay (4/24))
                      (dayOfMonth s.currentDay) hP2
                    by_cases hD : p.totalDistance ≤ ({ pushDay p s dayPlan with
                        stuckCounter := 0,
                        previousRemainingDistance :=
                          (pushDay p s dayPlan).remainingDistance } : SimState).currentKm
                    · rw [if_pos hD] at h
                      cases h
                      exact hdest _ hD hP3
                    · rw [if_neg hD] at h
                      exact ih _ r (by dsimp only [pushDay]; omega) hP3 h
                  · rw [if_neg hC] at h
                    by_cases hD : p.totalDistance ≤ ({ pushDay p s dayPlan with
                        stuckCounter := 0,
                        previousRemainingDistance :=
                          (pushDay p s dayPlan).remainingDistance } : SimState).currentKm
                    · rw [if_pos hD] at h
                      cases h
                      exact hdest _ hD hP2
                    · rw [if_neg hD] at h
                      exact ih _ r (by dsimp only [pushDay]; omega) hP2 h
      · rw [if_neg hg] at h
        cases h
        exact hP

/-! ## Max-days flagging invariants (towards C9) -/

/-- Trip-loop invariant: every pushed day is numbered at most `currentDay`
and at most `maxDays`, carries `reachedMaxDays` exactly when its number hits
`maxDays`, and the day numbers are strictly increasing. -/
def simDayFlagsOK (p : SimulationParameters) (s : SimState) : Prop :=
  (∀ d ∈ s.dailyItinerary,
      d.day ≤ s.currentDay ∧ d.day ≤ p.maxDays ∧
        (d.reachedMaxDays = true ↔ p.maxDays ≤ d.day))
    ∧ s.dailyItinerary.Pairwise fun a b => a.day < b.day

lemma runDays_dayFlagsOK (plannerFuel : ℕ) (oracle : ℕ → ℚ → Option ℚ)
    (dayOfMonth : ℕ → ℕ) (sinAtan : ℚ → ℚ) (slopeAt : ℚ → ℚ → ℚ)
    (controlStops : List ControlStop) (p : SimulationParameters)
    (n : ℕ) (s fs : SimState) (hrel : s.currentDay + n = p.maxDays)
    (hP : simDayFlagsOK p s)
    (h : runDays plannerFuel oracle dayOfMonth sinAtan slopeAt controlStops p n s
        = some fs) :
    simDayFlagsOK p fs := by
  refine runDays_invariant_fuel plannerFuel oracle dayOfMonth sinAtan slopeAt
    controlStops p (simDayFlagsOK p) ?_ ?_ ?_ ?_ ?_ n s fs hrel hP h
  · intro s _ hQ
    exact ⟨fun d hd => ⟨le_trans (hQ.1 d hd).1 (Nat.le_succ _), (hQ.1 d hd).2⟩, hQ.2⟩
  · intro s dayPlan hday _ _ _ hQ
    constructor
    · intro d hd
      rcases List.mem_append.mp hd with hm | hm
      · exact ⟨le_trans (hQ.1 d hm).1 (Nat.le_succ _), (hQ.1 d hm).2⟩
      · rw [List.mem_singleton.mp hm]
        refine ⟨le_refl _, hday, ?_⟩
        show decide (p.maxDays ≤ s.currentDay + 1) = true ↔ p.maxDays ≤ s.currentDay + 1
        simp
    · show ((s.dailyItinerary ++ [newDayOf p s dayPlan]).Pairwise fun a b => a.day < b.day)
      rw [List.pairwise_append]
      refine ⟨hQ.2, List.pairwise_singleton _ _, ?_⟩
      intro a ha b hb
      rw [List.mem_singleton.mp hb]
      exact Nat.lt_succ_of_le (hQ.1 a ha).1
  · exact fun s c r h => h
  · exact fun s o d h => h
  · exact fun s _ h => h

lemma flagList_setLastFlag (l : List DailyItinerary) (h : ¬ l = []) :
    flagList (setLastFlag l) = flagList l.dropLast ++ [true] := by
  induction l with
  | nil => exact absurd rfl h
  | cons d rest ih =>
      cases rest with
      | nil => rfl
      | cons e rest' =>
          show d.reachedMaxDays :: flagList (setLastFlag (e :: rest')) = _
          rw [ih (by simp)]
          rfl

lemma flagList_all_false (l : List DailyItinerary)
    (h : ∀ d ∈ l, d.reachedMaxDays = false) :
    flagList l = List.replicate l.length false := by
  have hlen : (flagList l).length = l.length := by
    unfold flagList
    exact List.length_map _ _
  rw [← hlen]
  refine List.eq_replicate_length.mpr ?_
  intro b hb
  rcases List.mem_map.mp hb with ⟨d, hd, hdb⟩
  rw [← hdb]
  exact h d hd

lemma setLastFlag_length (l : List DailyItinerary) :
    (setLastFlag l).length = l.length := by
  induction l with
  | nil => rfl
  | cons d rest ih =>
      cases rest with
      | nil => rfl
      | cons e rest' =>
          show (setLastFlag (e :: rest')).length + 1 = _
          rw [ih]
          rfl

/-! ## C9 — the `reachedMaxDays` flag marks exactly the terminal day of a
capped run -/

/-- C9: for every terminating run with positive average speed, if the day
cap was hit (the final day counter reached `maxDays`) then either the
returned itinerary is empty or exactly its last day carries
`reachedMaxDays = true` and every earlier day carries `false`; if the cap
was not hit, every returned day carries `false`. -/
theorem reachedMaxDays_only_terminal_day (plannerFuel : ℕ)
    (oracle : ℕ → ℚ → Option ℚ) (dayOfMonth : ℕ → ℕ) (sinAtan : ℚ → ℚ)
    (slopeAt : ℚ → ℚ → ℚ) (controlStops : List ControlStop)
    (p : SimulationParameters) (fs : SimState) (r : RouteItinerary)
    (hv : 0 < p.averageSpeed)
    (h : createRouteItineraryAux plannerFuel oracle dayOfMonth sinAtan slopeAt
          controlStops p = some (fs, r)) :
    (p.maxDays ≤ fs.currentDay →
        r.dailyItinerary = [] ∨
          flagList r.dailyItinerary
            = List.replicate (r.dailyItinerary.length - 1) false ++ [true])
      ∧ (fs.currentDay < p.maxDays →
        flagList r.dailyItinerary
          = List.replicate r.dailyItinerary.length false) := by
  obtain ⟨days, hrun, hfill, hassemble⟩ :=
    createRouteItineraryAux_elim plannerFuel oracle dayOfMonth sinAtan slopeAt
      controlStops p fs r h
  have hF : simDayFlagsOK p fs := by
    refine runDays_dayFlagsOK plannerFuel oracle dayOfMonth sinAtan slopeAt controlStops
      p p.maxDays (initSimState p) fs (by simp [initSimState]) ?_ hrun
    exact ⟨fun d hd => absurd hd (by simp [initSimState]), by simp [initSimState]⟩
  have hpos : ∀ d ∈ fs.dailyItinerary, 0 < d.totalDistance := by
    refine runDays_dayPos plannerFuel oracle dayOfMonth sinAtan slopeAt controlStops p
      hv p.maxDays (initSimState p) fs ?_ hrun
    intro d hd
    exact absurd hd (by simp [initSimState])
  have hdays : r.dailyItinerary = days := by rw [hassemble]; rfl
  set flagged := (if p.maxDays ≤ fs.currentDay then setLastFlag fs.dailyItinerary
    else fs.dailyItinerary) with hflagged
  have hflag_pos : ∀ d ∈ flagged, 0 < d.totalDistance := by
    intro d hd
    rw [hflagged] at hd
    by_cases hcap : p.maxDays ≤ fs.currentDay
    · rw [if_pos hcap] at hd
      obtain ⟨d0, hd0, heq⟩ := mem_setLastFlag_total fs.dailyItinerary d hd
      rw [← heq]
      exact hpos d0 hd0
    · rw [if_neg hcap] at hd
      exact hpos d hd
  have hfilter : flagged.filter (fun d => decide (0 < d.totalDistance)) = flagged :=
    List.filter_eq_self.mpr fun a ha => decide_eq_true (hflag_pos a ha)
  have hflags : flagList days = flagList flagged := by
    rw [fillProduction_map_flags oracle p _ days hfill, hfilter]
  have hlenflag : days.length = flagged.length := by
    have hl := congrArg List.length hflags
    unfold flagList at hl
    rw [List.length_map, List.length_map] at hl
    exact hl
  constructor
  · intro hcap
    have hflagged' : flagged = setLastFlag fs.dailyItinerary := by
      rw [hflagged, if_pos hcap]
    by_cases hnil : fs.dailyItinerary = []
    · left
      have hfe : flagged = [] := by rw [hflagged', hnil]; rfl
      have hde : days = [] := by
        have h2 := hflags
        rw [hfe] at h2
        unfold flagList at h2
        exact List.map_eq_nil_iff.mp h2
      rw [hdays, hde]
    · right
      have hlast := List.dropLast_append_getLast hnil
      have hcross : ∀ a ∈ fs.dailyItinerary.dropLast,
          a.day < (fs.dailyItinerary.getLast hnil).day := by
        have hPW := hF.2
        rw [← hlast, List.pairwise_append] at hPW
        intro a ha
        exact hPW.2.2 a ha _ (List.mem_singleton_self _)
      have hdrop_false : ∀ d ∈ fs.dailyItinerary.dropLast,
          d.reachedMaxDays = false := by
        intro d hd
        have hmem : d ∈ fs.dailyItinerary := by
          rw [← hlast]
          exact List.mem_append_left _ hd
        have hfacts := hF.1 d hmem
        have hlastmem : fs.dailyItinerary.getLast hnil ∈ fs.dailyItinerary :=
          List.getLast_mem hnil
        have hlastle := (hF.1 _ hlastmem).2.1
        have hdlt : d.day < p.maxDays := lt_of_lt_of_le (hcross d hd) hlastle
        cases hflag : d.reachedMaxDays
        · rfl
        · have := hfacts.2.2.mp hflag
          omega
      have hsetflags : flagList flagged
          = List.replicate (fs.dailyItinerary.length - 1) false ++ [true] := by
        rw [hflagged', flagList_setLastFlag _ hnil, flagList_all_false _ hdrop_false,
          List.length_dropLast]
      have hlen2 : days.length = fs.dailyItinerary.length := by
        rw [hlenflag, hflagged']
        exact setLastFlag_length _
      rw [hdays, hlen2, hflags, hsetflags]
  · intro hlt
    have hflagged' : flagged = fs.dailyItinerary := by
      rw [hflagged, if_neg (not_le.mpr hlt)]
    have hall : ∀ d ∈ fs.dailyItinerary, d.reachedMaxDays = false := by
      intro d hd
      have hfacts := hF.1 d hd
      cases hflag : d.reachedMaxDays
      · rfl
      · have h1 := hfacts.2.2.mp hflag
        have h2 := hfacts.1
        omega
    have hlen2 : days.length = fs.dailyItinerary.length := by
      rw [hlenflag, hflagged']
    rw [hdays, hlen2, hflags, hflagged', flagList_all_false _ hall]

/-- Witness for C9 at the concrete cutoff run (`maxDays = 1`): the cap is
hit, and the single returned day carries the flag. -/
theorem reachedMaxDays_only_terminal_day_witness :
    (0:ℚ) < paramsCutoff.averageSpeed ∧
      createRouteItineraryAux 5 zeroOracle firstOfMonth flatSinAtan emptySlopeAt []
          paramsCutoff = some (finalStateCutoff, itineraryCutoff)
      ∧ paramsCutoff.maxDays ≤ finalStateCutoff.currentDay
      ∧ (itineraryCutoff.dailyItinerary = [] ∨
          flagList itineraryCutoff.dailyItinerary
            = List.replicate (itineraryCutoff.dailyItinerary.length - 1) false ++ [true]) := by
  have key := reachedMaxDays_only_terminal_day 5 zeroOracle firstOfMonth flatSinAtan
    emptySlopeAt [] paramsCutoff finalStateCutoff itineraryCutoff
    (by norm_num [paramsCutoff, paramsShort]) (by decide)
  exact ⟨by norm_num [paramsCutoff, paramsShort], by decide, by decide,
    key.1 (by decide)⟩
